import Mathlib

/-!
Verification development for the liuyao divination engine
(TypeScript sources under src/lib/liuyao and the najia / yongshen /
interpretation modules).

Modelling conventions used throughout this file:
* the closed string-literal unions of types.ts (stems, branches, elements,
  trigrams, six kin, six guardians, ...) become inductive types whose
  constructors are the standard pinyin transliterations of the Chinese
  literals;
* a hexagram binary key (a 6-character string of 0/1 built bottom-to-top
  in the TypeScript code) is modelled as a `List Bool` with `true` for
  the character 1 (= a yang line); the helper `keyOf` converts the
  string literals of constants.ts so the 64-entry table below can be
  diffed character-by-character against the source;
* TypeScript functions that can throw (table lookup misses, missing
  world/response line) return `Option`;
* JavaScript `%` on possibly-negative numbers is `Int.tmod`; the code
  always normalises with the `((x % n) + n) % n` idiom, which is kept
  verbatim;
* presentation-only prose (descriptions, plain-language texts, reasoning
  step records, summaries, causal chains) is not modelled: no claim
  reads it and it never feeds back into any computed field.
-/

/-- Ten heavenly stems 甲乙丙丁戊己庚辛壬癸 (type TianGan of types.ts). -/
inductive TianGan where
  | Jia | Yi | Bing | Ding | Wu | Ji | Geng | Xin | Ren | Gui
  deriving DecidableEq, Repr, Fintype

/-- Twelve earthly branches 子丑寅卯辰巳午未申酉戌亥 (type DiZhi of types.ts). -/
inductive DiZhi where
  | Zi | Chou | Yin | Mao | Chen | Si | Wu | Wei | Shen | You | Xu | Hai
  deriving DecidableEq, Repr, Fintype

/-- Five elements 金木水火土 (type WuXing of types.ts): metal, wood, water, fire, earth. -/
inductive WuXing where
  | Jin | Mu | Shui | Huo | Tu
  deriving DecidableEq, Repr

/-- Yin/yang polarity 阴/阳 (type YinYang of types.ts). -/
inductive YinYang where
  | yin | yang
  deriving DecidableEq, Repr

/-- Eight trigrams 乾兑离震巽坎艮坤 (type BaGua of types.ts). -/
inductive BaGua where
  | Qian | Dui | Li | Zhen | Xun | Kan | Gen | Kun
  deriving DecidableEq, Repr

/-- Four line draw kinds (type YaoType of types.ts): old yin 6, young yin 8,
young yang 7, old yang 9. -/
inductive YaoType where
  | oldYin | youngYin | youngYang | oldYang
  deriving DecidableEq, Repr, Fintype

/-- Six kin 父母兄弟子孙妻财官鬼 (type LiuQin of types.ts):
FuMu = parent, XiongDi = sibling, ZiSun = offspring, QiCai = wealth,
GuanGui = officer. -/
inductive LiuQin where
  | FuMu | XiongDi | ZiSun | QiCai | GuanGui
  deriving DecidableEq, Repr

/-- Six guardians 青龙朱雀勾陈螣蛇白虎玄武 (type LiuShen of types.ts). -/
inductive LiuShen where
  | QingLong | ZhuQue | GouChen | TengShe | BaiHu | XuanWu
  deriving DecidableEq, Repr

/-- Month-command prosperity states 旺相休囚死 (type ProsperityState of types.ts). -/
inductive ProsperityState where
  | Wang | Xiang | Xiu | Qiu | Si
  deriving DecidableEq, Repr

/-- Twelve life-cycle stages 长生..养 (type TwelveStage of types.ts). -/
inductive TwelveStage where
  | ChangSheng | MuYu | GuanDai | LinGuan | DiWang | Shuai
  | Bing | SiStage | Mu | Jue | Tai | Yang
  deriving DecidableEq, Repr

/-- Transformation kinds of an active line (type ChangeType of types.ts). -/
inductive ChangeType where
  | advance | retreat | returnBirth | returnClash | toVoid | toTomb | toBindingEnd | normal
  deriving DecidableEq, Repr

/-- Branch relation kinds (type DiZhiRelation of types.ts); noRel is the
source literal none. -/
inductive DiZhiRelation where
  | sixClash | sixHarmony | threeHarmony | threePenalty | sixHarm | destruction | noRel
  deriving DecidableEq, Repr

/-- Qualitative impact of a relation finding (field impact of RelationAnalysis). -/
inductive Impact where
  | positive | negative | neutral
  deriving DecidableEq, Repr

/-- Question categories (type QuestionCategory of types.ts). -/
inductive QuestionCategory where
  | career | love | wealth | health | study | lawsuit | travel | lost | other
  deriving DecidableEq, Repr

/-- Casting methods (type CastingMethod of types.ts). -/
inductive CastingMethod where
  | coin | time | manual
  deriving DecidableEq, Repr

/-- Gender options for love questions (type GenderOption of types.ts). -/
inductive GenderOption where
  | male | female | sameSex
  deriving DecidableEq, Repr

/-- Six-level trend judgment (type TrendJudgment of types.ts). -/
inductive TrendJudgment where
  | veryFavorable | favorable | neutral | unfavorable | veryUnfavorable | uncertain
  deriving DecidableEq, Repr

/-- Interpretation item kinds (field type of InterpretationItem in types.ts). -/
inductive ItemType where
  | trend | obstacle | support | timing | advice | risk
  deriving DecidableEq, Repr

/-- Day-pillar action on a line (dayStatus in prosperity.ts). -/
inductive DayStatus where
  | support | restrain | neutral
  deriving DecidableEq, Repr

/-- Focus-element targets (type YongShenTarget of types.ts): a six-kin role
or one of the special literals 世爻 (self line), 应爻 (other line),
用神 (per-relative focus). -/
inductive YongShenTarget where
  | kin (q : LiuQin) | ShiYao | YingYao | YongShenLiteral
  deriving DecidableEq, Repr

/-- Array 十天干 TIAN_GAN of constants.ts, in source order. -/
def TIAN_GAN : List TianGan :=
  [.Jia, .Yi, .Bing, .Ding, .Wu, .Ji, .Geng, .Xin, .Ren, .Gui]

/-- Array 十二地支 DI_ZHI of constants.ts, in source order. -/
def DI_ZHI : List DiZhi :=
  [.Zi, .Chou, .Yin, .Mao, .Chen, .Si, .Wu, .Wei, .Shen, .You, .Xu, .Hai]

/-- Index of a stem in TIAN_GAN (ganzhi.ts getTianGanIndex, via indexOf). -/
def getTianGanIndex : TianGan → Nat
  | .Jia => 0 | .Yi => 1 | .Bing => 2 | .Ding => 3 | .Wu => 4
  | .Ji => 5 | .Geng => 6 | .Xin => 7 | .Ren => 8 | .Gui => 9

/-- Index of a branch in DI_ZHI (ganzhi.ts getDiZhiIndex, via indexOf). -/
def getDiZhiIndex : DiZhi → Nat
  | .Zi => 0 | .Chou => 1 | .Yin => 2 | .Mao => 3 | .Chen => 4 | .Si => 5
  | .Wu => 6 | .Wei => 7 | .Shen => 8 | .You => 9 | .Xu => 10 | .Hai => 11

/-- Table 地支五行 DI_ZHI_WU_XING of constants.ts. -/
def DI_ZHI_WU_XING : DiZhi → WuXing
  | .Zi => .Shui | .Chou => .Tu | .Yin => .Mu | .Mao => .Mu
  | .Chen => .Tu | .Si => .Huo | .Wu => .Huo | .Wei => .Tu
  | .Shen => .Jin | .You => .Jin | .Xu => .Tu | .Hai => .Shui

/-- Table 五行相生 WU_XING_SHENG of constants.ts: wood→fire→earth→metal→water→wood. -/
def WU_XING_SHENG : WuXing → WuXing
  | .Mu => .Huo | .Huo => .Tu | .Tu => .Jin | .Jin => .Shui | .Shui => .Mu

/-- Table 五行相克 WU_XING_KE of constants.ts: wood→earth→water→fire→metal→wood. -/
def WU_XING_KE : WuXing → WuXing
  | .Mu => .Tu | .Tu => .Shui | .Shui => .Huo | .Huo => .Jin | .Jin => .Mu

/-- Table 五行被生 WU_XING_BEI_SHENG of constants.ts. -/
def WU_XING_BEI_SHENG : WuXing → WuXing
  | .Mu => .Shui | .Huo => .Mu | .Tu => .Huo | .Jin => .Tu | .Shui => .Jin

/-- Table 五行被克 WU_XING_BEI_KE of constants.ts. -/
def WU_XING_BEI_KE : WuXing → WuXing
  | .Mu => .Jin | .Huo => .Shui | .Tu => .Mu | .Jin => .Huo | .Shui => .Tu

/-- Table 六冲 DI_ZHI_CHONG of constants.ts. -/
def DI_ZHI_CHONG : DiZhi → DiZhi
  | .Zi => .Wu | .Chou => .Wei | .Yin => .Shen | .Mao => .You
  | .Chen => .Xu | .Si => .Hai | .Wu => .Zi | .Wei => .Chou
  | .Shen => .Yin | .You => .Mao | .Xu => .Chen | .Hai => .Si

/-- Table 六合 DI_ZHI_HE of constants.ts. -/
def DI_ZHI_HE : DiZhi → DiZhi
  | .Zi => .Chou | .Chou => .Zi | .Yin => .Hai | .Mao => .Xu
  | .Chen => .You | .Si => .Shen | .Wu => .Wei | .Wei => .Wu
  | .Shen => .Si | .You => .Chen | .Xu => .Mao | .Hai => .Yin

/-- Table 六害 DI_ZHI_HAI of constants.ts. -/
def DI_ZHI_HAI : DiZhi → DiZhi
  | .Zi => .Wei | .Chou => .Wu | .Yin => .Si | .Mao => .Chen
  | .Chen => .Mao | .Si => .Yin | .Wu => .Chou | .Wei => .Zi
  | .Shen => .Hai | .You => .Xu | .Xu => .You | .Hai => .Shen

/-- Table 三刑 DI_ZHI_XING of constants.ts (1-to-many, with the explicit
self-penalty set for 辰午酉亥). -/
def DI_ZHI_XING : DiZhi → List DiZhi
  | .Zi => [.Mao] | .Mao => [.Zi]
  | .Yin => [.Si, .Shen] | .Si => [.Yin, .Shen] | .Shen => [.Yin, .Si]
  | .Chou => [.Xu, .Wei] | .Xu => [.Chou, .Wei] | .Wei => [.Chou, .Xu]
  | .Chen => [.Chen] | .Wu => [.Wu] | .You => [.You] | .Hai => [.Hai]

/-- Table 三合局 DI_ZHI_SAN_HE of constants.ts, in insertion order:
申子辰→water, 寅午戌→fire, 巳酉丑→metal, 亥卯未→wood.  Each key string is
modelled as its list of member branches. -/
def DI_ZHI_SAN_HE : List (List DiZhi × WuXing) :=
  [([.Shen, .Zi, .Chen], .Shui),
   ([.Yin, .Wu, .Xu], .Huo),
   ([.Si, .You, .Chou], .Jin),
   ([.Hai, .Mao, .Wei], .Mu)]

/-- Converts a 0/1 string literal of constants.ts into the Boolean key used
throughout this development (character 1 = true = yang, bottom-to-top). -/
def keyOf (s : String) : List Bool :=
  s.toList.map (fun c => c == '1')

/-- Record BaGuaInfo of constants.ts (the nature string is presentation only
and not modelled). -/
structure BaGuaInfo where
  name : BaGua
  binary : List Bool
  wuXing : WuXing
  number : Nat
  naJiaYang : TianGan
  naJiaYin : TianGan
  deriving DecidableEq, Repr

/-- Table 八卦数据 BA_GUA_DATA of constants.ts. -/
def BA_GUA_DATA : BaGua → BaGuaInfo
  | .Qian => { name := .Qian, binary := keyOf "111", wuXing := .Jin, number := 1,
               naJiaYang := .Jia, naJiaYin := .Ren }
  | .Dui => { name := .Dui, binary := keyOf "011", wuXing := .Jin, number := 2,
              naJiaYang := .Ding, naJiaYin := .Ding }
  | .Li => { name := .Li, binary := keyOf "101", wuXing := .Huo, number := 3,
             naJiaYang := .Ji, naJiaYin := .Ji }
  | .Zhen => { name := .Zhen, binary := keyOf "001", wuXing := .Mu, number := 4,
               naJiaYang := .Geng, naJiaYin := .Geng }
  | .Xun => { name := .Xun, binary := keyOf "110", wuXing := .Mu, number := 5,
              naJiaYang := .Xin, naJiaYin := .Xin }
  | .Kan => { name := .Kan, binary := keyOf "010", wuXing := .Shui, number := 6,
              naJiaYang := .Wu, naJiaYin := .Wu }
  | .Gen => { name := .Gen, binary := keyOf "100", wuXing := .Tu, number := 7,
              naJiaYang := .Bing, naJiaYin := .Bing }
  | .Kun => { name := .Kun, binary := keyOf "000", wuXing := .Tu, number := 8,
              naJiaYang := .Yi, naJiaYin := .Gui }

/-- Table 纳甲地支表 NA_JIA_DI_ZHI of constants.ts (branches for line
positions 1-6, bottom to top). -/
def NA_JIA_DI_ZHI : BaGua → List DiZhi
  | .Qian => [.Zi, .Yin, .Chen, .Wu, .Shen, .Xu]
  | .Kun => [.Wei, .Si, .Mao, .Chou, .Hai, .You]
  | .Zhen => [.Zi, .Yin, .Chen, .Wu, .Shen, .Xu]
  | .Xun => [.Chou, .Hai, .You, .Wei, .Si, .Mao]
  | .Kan => [.Yin, .Chen, .Wu, .Shen, .Xu, .Zi]
  | .Li => [.Mao, .Chou, .Hai, .You, .Wei, .Si]
  | .Gen => [.Chen, .Wu, .Shen, .Xu, .Zi, .Yin]
  | .Dui => [.Si, .Mao, .Chou, .Hai, .You, .Wei]

/-- Table 六神起法 LIU_SHEN_START of constants.ts (day stem to the guardian
of line 1). -/
def LIU_SHEN_START : TianGan → LiuShen
  | .Jia => .QingLong | .Yi => .QingLong
  | .Bing => .ZhuQue | .Ding => .ZhuQue
  | .Wu => .GouChen
  | .Ji => .TengShe
  | .Geng => .BaiHu | .Xin => .BaiHu
  | .Ren => .XuanWu | .Gui => .XuanWu

/-- Array 六神顺序 LIU_SHEN_ORDER of constants.ts. -/
def LIU_SHEN_ORDER : List LiuShen :=
  [.QingLong, .ZhuQue, .GouChen, .TengShe, .BaiHu, .XuanWu]

/-- Function getLiuQin of constants.ts: six-kin role of a target element
relative to the palace element 我. -/
def getLiuQin (myWuXing targetWuXing : WuXing) : LiuQin :=
  if WU_XING_BEI_SHENG myWuXing = targetWuXing then .FuMu
  else if WU_XING_SHENG myWuXing = targetWuXing then .ZiSun
  else if WU_XING_BEI_KE myWuXing = targetWuXing then .GuanGui
  else if WU_XING_KE myWuXing = targetWuXing then .QiCai
  else .XiongDi

/-- Function getProsperityByMonth of constants.ts (旺相休囚死 by month element). -/
def getProsperityByMonth (targetWuXing monthWuXing : WuXing) : ProsperityState :=
  if targetWuXing = monthWuXing then .Wang
  else if WU_XING_BEI_SHENG monthWuXing = targetWuXing then .Xiang
  else if WU_XING_SHENG targetWuXing = monthWuXing then .Xiu
  else if WU_XING_KE targetWuXing = monthWuXing then .Qiu
  else if WU_XING_BEI_KE targetWuXing = monthWuXing then .Si
  else .Xiu

/-- Table entry Omit GuaInfo binary of constants.ts (one hexagram record of
GUA_64_DATA). -/
structure GuaData where
  name : String
  sequence : Nat
  upperGua : BaGua
  lowerGua : BaGua
  palace : BaGua
  worldPosition : Nat
  responsePosition : Nat
  wuXing : WuXing
  deriving DecidableEq, Repr

/-- Interface GuaInfo of types.ts: a table entry extended with the binary
key it was resolved from. -/
structure GuaInfo extends GuaData where
  binary : List Bool
  deriving DecidableEq, Repr

/-- Table 六十四卦数据 GUA_64_DATA of constants.ts, keyed by binary string,
in source order (eight palaces of eight hexagrams each). -/
def GUA_64_DATA : List (List Bool × GuaData) :=
  [(keyOf "111111", { name := "乾为天", sequence := 1, upperGua := .Qian, lowerGua := .Qian, palace := .Qian, worldPosition := 6, responsePosition := 3, wuXing := .Jin }),
   (keyOf "111110", { name := "天风姤", sequence := 2, upperGua := .Qian, lowerGua := .Xun, palace := .Qian, worldPosition := 1, responsePosition := 4, wuXing := .Jin }),
   (keyOf "111001", { name := "天山遁", sequence := 3, upperGua := .Qian, lowerGua := .Gen, palace := .Qian, worldPosition := 2, responsePosition := 5, wuXing := .Jin }),
   (keyOf "111000", { name := "天地否", sequence := 4, upperGua := .Qian, lowerGua := .Kun, palace := .Qian, worldPosition := 3, responsePosition := 6, wuXing := .Jin }),
   (keyOf "110000", { name := "风地观", sequence := 5, upperGua := .Xun, lowerGua := .Kun, palace := .Qian, worldPosition := 4, responsePosition := 1, wuXing := .Jin }),
   (keyOf "100000", { name := "山地剥", sequence := 6, upperGua := .Gen, lowerGua := .Kun, palace := .Qian, worldPosition := 5, responsePosition := 2, wuXing := .Jin }),
   (keyOf "101000", { name := "火地晋", sequence := 7, upperGua := .Li, lowerGua := .Kun, palace := .Qian, worldPosition := 4, responsePosition := 1, wuXing := .Jin }),
   (keyOf "101111", { name := "火天大有", sequence := 8, upperGua := .Li, lowerGua := .Qian, palace := .Qian, worldPosition := 3, responsePosition := 6, wuXing := .Jin }),
   (keyOf "011011", { name := "兑为泽", sequence := 9, upperGua := .Dui, lowerGua := .Dui, palace := .Dui, worldPosition := 6, responsePosition := 3, wuXing := .Jin }),
   (keyOf "011010", { name := "泽水困", sequence := 10, upperGua := .Dui, lowerGua := .Kan, palace := .Dui, worldPosition := 1, responsePosition := 4, wuXing := .Jin }),
   (keyOf "011000", { name := "泽地萃", sequence := 11, upperGua := .Dui, lowerGua := .Kun, palace := .Dui, worldPosition := 2, responsePosition := 5, wuXing := .Jin }),
   (keyOf "011100", { name := "泽山咸", sequence := 12, upperGua := .Dui, lowerGua := .Gen, palace := .Dui, worldPosition := 3, responsePosition := 6, wuXing := .Jin }),
   (keyOf "010100", { name := "水山蹇", sequence := 13, upperGua := .Kan, lowerGua := .Gen, palace := .Dui, worldPosition := 4, responsePosition := 1, wuXing := .Jin }),
   (keyOf "000100", { name := "地山谦", sequence := 14, upperGua := .Kun, lowerGua := .Gen, palace := .Dui, worldPosition := 5, responsePosition := 2, wuXing := .Jin }),
   (keyOf "001100", { name := "雷山小过", sequence := 15, upperGua := .Zhen, lowerGua := .Gen, palace := .Dui, worldPosition := 4, responsePosition := 1, wuXing := .Jin }),
   (keyOf "001011", { name := "雷泽归妹", sequence := 16, upperGua := .Zhen, lowerGua := .Dui, palace := .Dui, worldPosition := 3, responsePosition := 6, wuXing := .Jin }),
   (keyOf "101101", { name := "离为火", sequence := 17, upperGua := .Li, lowerGua := .Li, palace := .Li, worldPosition := 6, responsePosition := 3, wuXing := .Huo }),
   (keyOf "101001", { name := "火山旅", sequence := 18, upperGua := .Li, lowerGua := .Gen, palace := .Li, worldPosition := 1, responsePosition := 4, wuXing := .Huo }),
   (keyOf "101110", { name := "火风鼎", sequence := 19, upperGua := .Li, lowerGua := .Xun, palace := .Li, worldPosition := 2, responsePosition := 5, wuXing := .Huo }),
   (keyOf "101011", { name := "火水未济", sequence := 20, upperGua := .Li, lowerGua := .Kan, palace := .Li, worldPosition := 3, responsePosition := 6, wuXing := .Huo }),
   (keyOf "100011", { name := "山水蒙", sequence := 21, upperGua := .Gen, lowerGua := .Kan, palace := .Li, worldPosition := 4, responsePosition := 1, wuXing := .Huo }),
   (keyOf "110011", { name := "风水涣", sequence := 22, upperGua := .Xun, lowerGua := .Kan, palace := .Li, worldPosition := 5, responsePosition := 2, wuXing := .Huo }),
   (keyOf "111011", { name := "天水讼", sequence := 23, upperGua := .Qian, lowerGua := .Kan, palace := .Li, worldPosition := 4, responsePosition := 1, wuXing := .Huo }),
   (keyOf "111101", { name := "天火同人", sequence := 24, upperGua := .Qian, lowerGua := .Li, palace := .Li, worldPosition := 3, responsePosition := 6, wuXing := .Huo }),
   (keyOf "001001", { name := "震为雷", sequence := 25, upperGua := .Zhen, lowerGua := .Zhen, palace := .Zhen, worldPosition := 6, responsePosition := 3, wuXing := .Mu }),
   (keyOf "001000", { name := "雷地豫", sequence := 26, upperGua := .Zhen, lowerGua := .Kun, palace := .Zhen, worldPosition := 1, responsePosition := 4, wuXing := .Mu }),
   (keyOf "001010", { name := "雷水解", sequence := 27, upperGua := .Zhen, lowerGua := .Kan, palace := .Zhen, worldPosition := 2, responsePosition := 5, wuXing := .Mu }),
   (keyOf "001110", { name := "雷风恒", sequence := 28, upperGua := .Zhen, lowerGua := .Xun, palace := .Zhen, worldPosition := 3, responsePosition := 6, wuXing := .Mu }),
   (keyOf "000110", { name := "地风升", sequence := 29, upperGua := .Kun, lowerGua := .Xun, palace := .Zhen, worldPosition := 4, responsePosition := 1, wuXing := .Mu }),
   (keyOf "010110", { name := "水风井", sequence := 30, upperGua := .Kan, lowerGua := .Xun, palace := .Zhen, worldPosition := 5, responsePosition := 2, wuXing := .Mu }),
   (keyOf "011110", { name := "泽风大过", sequence := 31, upperGua := .Dui, lowerGua := .Xun, palace := .Zhen, worldPosition := 4, responsePosition := 1, wuXing := .Mu }),
   (keyOf "011001", { name := "泽雷随", sequence := 32, upperGua := .Dui, lowerGua := .Zhen, palace := .Zhen, worldPosition := 3, responsePosition := 6, wuXing := .Mu }),
   (keyOf "110110", { name := "巽为风", sequence := 33, upperGua := .Xun, lowerGua := .Xun, palace := .Xun, worldPosition := 6, responsePosition := 3, wuXing := .Mu }),
   (keyOf "110111", { name := "风天小畜", sequence := 34, upperGua := .Xun, lowerGua := .Qian, palace := .Xun, worldPosition := 1, responsePosition := 4, wuXing := .Mu }),
   (keyOf "110101", { name := "风火家人", sequence := 35, upperGua := .Xun, lowerGua := .Li, palace := .Xun, worldPosition := 2, responsePosition := 5, wuXing := .Mu }),
   (keyOf "110100", { name := "风雷益", sequence := 36, upperGua := .Xun, lowerGua := .Zhen, palace := .Xun, worldPosition := 3, responsePosition := 6, wuXing := .Mu }),
   (keyOf "111100", { name := "天雷无妄", sequence := 37, upperGua := .Qian, lowerGua := .Zhen, palace := .Xun, worldPosition := 4, responsePosition := 1, wuXing := .Mu }),
   (keyOf "101100", { name := "火雷噬嗑", sequence := 38, upperGua := .Li, lowerGua := .Zhen, palace := .Xun, worldPosition := 5, responsePosition := 2, wuXing := .Mu }),
   (keyOf "100001", { name := "山雷颐", sequence := 39, upperGua := .Gen, lowerGua := .Zhen, palace := .Xun, worldPosition := 4, responsePosition := 1, wuXing := .Mu }),
   (keyOf "100110", { name := "山风蛊", sequence := 40, upperGua := .Gen, lowerGua := .Xun, palace := .Xun, worldPosition := 3, responsePosition := 6, wuXing := .Mu }),
   (keyOf "010010", { name := "坎为水", sequence := 41, upperGua := .Kan, lowerGua := .Kan, palace := .Kan, worldPosition := 6, responsePosition := 3, wuXing := .Shui }),
   (keyOf "010011", { name := "水泽节", sequence := 42, upperGua := .Kan, lowerGua := .Dui, palace := .Kan, worldPosition := 1, responsePosition := 4, wuXing := .Shui }),
   (keyOf "010001", { name := "水雷屯", sequence := 43, upperGua := .Kan, lowerGua := .Zhen, palace := .Kan, worldPosition := 2, responsePosition := 5, wuXing := .Shui }),
   (keyOf "010101", { name := "水火既济", sequence := 44, upperGua := .Kan, lowerGua := .Li, palace := .Kan, worldPosition := 3, responsePosition := 6, wuXing := .Shui }),
   (keyOf "011101", { name := "泽火革", sequence := 45, upperGua := .Dui, lowerGua := .Li, palace := .Kan, worldPosition := 4, responsePosition := 1, wuXing := .Shui }),
   (keyOf "001101", { name := "雷火丰", sequence := 46, upperGua := .Zhen, lowerGua := .Li, palace := .Kan, worldPosition := 5, responsePosition := 2, wuXing := .Shui }),
   (keyOf "000101", { name := "地火明夷", sequence := 47, upperGua := .Kun, lowerGua := .Li, palace := .Kan, worldPosition := 4, responsePosition := 1, wuXing := .Shui }),
   (keyOf "000010", { name := "地水师", sequence := 48, upperGua := .Kun, lowerGua := .Kan, palace := .Kan, worldPosition := 3, responsePosition := 6, wuXing := .Shui }),
   (keyOf "100100", { name := "艮为山", sequence := 49, upperGua := .Gen, lowerGua := .Gen, palace := .Gen, worldPosition := 6, responsePosition := 3, wuXing := .Tu }),
   (keyOf "100101", { name := "山火贲", sequence := 50, upperGua := .Gen, lowerGua := .Li, palace := .Gen, worldPosition := 1, responsePosition := 4, wuXing := .Tu }),
   (keyOf "100111", { name := "山天大畜", sequence := 51, upperGua := .Gen, lowerGua := .Qian, palace := .Gen, worldPosition := 2, responsePosition := 5, wuXing := .Tu }),
   (keyOf "100010", { name := "山泽损", sequence := 52, upperGua := .Gen, lowerGua := .Dui, palace := .Gen, worldPosition := 3, responsePosition := 6, wuXing := .Tu }),
   (keyOf "101010", { name := "火泽睽", sequence := 53, upperGua := .Li, lowerGua := .Dui, palace := .Gen, worldPosition := 4, responsePosition := 1, wuXing := .Tu }),
   (keyOf "111010", { name := "天泽履", sequence := 54, upperGua := .Qian, lowerGua := .Dui, palace := .Gen, worldPosition := 5, responsePosition := 2, wuXing := .Tu }),
   (keyOf "110010", { name := "风泽中孚", sequence := 55, upperGua := .Xun, lowerGua := .Dui, palace := .Gen, worldPosition := 4, responsePosition := 1, wuXing := .Tu }),
   (keyOf "110001", { name := "风山渐", sequence := 56, upperGua := .Xun, lowerGua := .Gen, palace := .Gen, worldPosition := 3, responsePosition := 6, wuXing := .Tu }),
   (keyOf "000000", { name := "坤为地", sequence := 57, upperGua := .Kun, lowerGua := .Kun, palace := .Kun, worldPosition := 6, responsePosition := 3, wuXing := .Tu }),
   (keyOf "000001", { name := "地雷复", sequence := 58, upperGua := .Kun, lowerGua := .Zhen, palace := .Kun, worldPosition := 1, responsePosition := 4, wuXing := .Tu }),
   (keyOf "000011", { name := "地泽临", sequence := 59, upperGua := .Kun, lowerGua := .Dui, palace := .Kun, worldPosition := 2, responsePosition := 5, wuXing := .Tu }),
   (keyOf "000111", { name := "地天泰", sequence := 60, upperGua := .Kun, lowerGua := .Qian, palace := .Kun, worldPosition := 3, responsePosition := 6, wuXing := .Tu }),
   (keyOf "001111", { name := "雷天大壮", sequence := 61, upperGua := .Zhen, lowerGua := .Qian, palace := .Kun, worldPosition := 4, responsePosition := 1, wuXing := .Tu }),
   (keyOf "011111", { name := "泽天夬", sequence := 62, upperGua := .Dui, lowerGua := .Qian, palace := .Kun, worldPosition := 5, responsePosition := 2, wuXing := .Tu }),
   (keyOf "010111", { name := "水天需", sequence := 63, upperGua := .Kan, lowerGua := .Qian, palace := .Kun, worldPosition := 4, responsePosition := 1, wuXing := .Tu }),
   (keyOf "010000", { name := "水地比", sequence := 64, upperGua := .Kan, lowerGua := .Kun, palace := .Kun, worldPosition := 3, responsePosition := 6, wuXing := .Tu })]

/-- Interface YaoState of types.ts: polarity, active flag, draw kind and the
optional coin draw value. -/
structure YaoState where
  yinYang : YinYang
  isMoving : Bool
  type : YaoType
  coinResult : Option Nat := none
  deriving DecidableEq, Repr

/-- One line of the 0/1 key built by hexagram.ts (yang = character 1). -/
def yaoBit (y : YaoState) : Bool :=
  y.yinYang == .yang

/-- Function getGuaFromYaoStates of hexagram.ts: build the bottom-to-top
binary key and look it up in GUA_64_DATA; a missing key throws in the
source and is none here. -/
def getGuaFromYaoStates (yaoStates : List YaoState) : Option GuaInfo :=
  let binary := yaoStates.map yaoBit
  (GUA_64_DATA.lookup binary).map (fun guaData => { toGuaData := guaData, binary := binary })

/-- Function getChangedGua of hexagram.ts: none when no line is active,
otherwise flip the active lines and re-resolve. -/
def getChangedGua (yaoStates : List YaoState) : Option GuaInfo :=
  if yaoStates.any (fun y => y.isMoving) then
    let changedBinary := yaoStates.map (fun y => if y.isMoving then !(yaoBit y) else yaoBit y)
    (GUA_64_DATA.lookup changedBinary).map
      (fun guaData => { toGuaData := guaData, binary := changedBinary })
  else none

/-- Helper for getMovingPositions: positions (1-based) of the active lines,
carrying the position counter of the source map over indices. -/
def movingPositionsFrom (pos : Nat) : List YaoState → List Nat
  | [] => []
  | y :: rest =>
      if y.isMoving then pos :: movingPositionsFrom (pos + 1) rest
      else movingPositionsFrom (pos + 1) rest

/-- Function getMovingPositions of hexagram.ts. -/
def getMovingPositions (yaoStates : List YaoState) : List Nat :=
  movingPositionsFrom 1 yaoStates

/-- Function coinSumToYaoState of hexagram.ts (only the values 6/7/8/9 are
possible for three coins; other numbers are unrepresentable in the source
type and map to none here). -/
def coinSumToYaoState : Nat → Option YaoState
  | 6 => some { yinYang := .yin, isMoving := true, type := .oldYin, coinResult := some 6 }
  | 7 => some { yinYang := .yang, isMoving := false, type := .youngYang, coinResult := some 7 }
  | 8 => some { yinYang := .yin, isMoving := false, type := .youngYin, coinResult := some 8 }
  | 9 => some { yinYang := .yang, isMoving := true, type := .oldYang, coinResult := some 9 }
  | _ => none

/-- A calendar timestamp for the ganzhi module.  A JavaScript Date is
modelled by its local calendar components together with two derived
primitives: ep, the whole-day count from the Unix epoch to the UTC
midnight of (year, month, day) as computed by Date.UTC in daysBetween of
ganzhi.ts, and ms, the epoch-millisecond value returned by getTime. -/
structure DateRec where
  year : Int
  month : Nat
  day : Nat
  hour : Nat
  ep : Int
  ms : Int
  deriving DecidableEq, Repr

/-- One pillar: a stem paired with a branch. -/
structure GanZhiPair where
  gan : TianGan
  zhi : DiZhi
  deriving DecidableEq, Repr

/-- Interface GanZhiTime of types.ts. -/
structure GanZhiTime where
  year : GanZhiPair
  month : GanZhiPair
  day : GanZhiPair
  hour : GanZhiPair
  voidBranches : DiZhi × DiZhi
  monthWuXing : WuXing
  dayWuXing : WuXing
  deriving DecidableEq, Repr

/-- JavaScript remainder operator (truncated toward zero). -/
def jsMod (a b : Int) : Int :=
  Int.tmod a b

/-- Epoch-day number of the base day 2000-01-07 (a 甲子 day, BASE_DATE of
ganzhi.ts): 10957 days to 2000-01-01 plus 6. -/
def BASE_EP : Int := 10963

/-- Function getDayGanZhi of ganzhi.ts, with the Date argument reduced to
its epoch-day number (daysBetween of the source is ep - BASE_EP, and both
base indices are 0). -/
def getDayGanZhi (ep : Int) : GanZhiPair :=
  let days := ep - BASE_EP
  let ganIndex := jsMod (jsMod (0 + days) 10 + 10) 10
  let zhiIndex := jsMod (jsMod (0 + days) 12 + 12) 12
  { gan := TIAN_GAN.getD ganIndex.toNat .Jia, zhi := DI_ZHI.getD zhiIndex.toNat .Zi }

/-- Table LI_CHUN_DATES of ganzhi.ts (exact spring-begins dates 2000-2050;
most years are Feb 4, the listed exceptions Feb 3). -/
def LI_CHUN_DATES (year : Int) : Option (Nat × Nat) :=
  if year < 2000 ∨ year > 2050 then none
  else if year = 2017 ∨ year = 2021 ∨ year = 2025 ∨ year = 2029 ∨ year = 2033 ∨
          year = 2041 ∨ year = 2045 ∨ year = 2049 then some (2, 3)
  else some (2, 4)

/-- Comparison date < new Date(year, m - 1, d) of ganzhi.ts for a date in
that same year: lexicographic on (month, day), any time of day on the
boundary day itself counting as not before. -/
def beforeMonthDay (dm dd m d : Nat) : Bool :=
  dm < m ∨ (dm = m ∧ dd < d)

/-- Function getYearGanZhi of ganzhi.ts (year pillar, spring-begins
boundary, 1984 = 甲子). -/
def getYearGanZhi (date : DateRec) : GanZhiPair :=
  let year :=
    match LI_CHUN_DATES date.year with
    | some (lm, ld) => if beforeMonthDay date.month date.day lm ld then date.year - 1 else date.year
    | none => if beforeMonthDay date.month date.day 2 4 then date.year - 1 else date.year
  let ganIndex := jsMod (jsMod (year - 4) 10 + 10) 10
  let zhiIndex := jsMod (jsMod (year - 4) 12 + 12) 12
  { gan := TIAN_GAN.getD ganIndex.toNat .Jia, zhi := DI_ZHI.getD zhiIndex.toNat .Zi }

/-- Table JIE_QI_APPROX of ganzhi.ts: approximate solar-term boundaries
(name, month, day), index i starting the branch (i + 2) mod 12. -/
def JIE_QI_APPROX : List (String × Nat × Nat) :=
  [("立春", 2, 4), ("惊蛰", 3, 6), ("清明", 4, 5), ("立夏", 5, 6),
   ("芒种", 6, 6), ("小暑", 7, 7), ("立秋", 8, 8), ("白露", 9, 8),
   ("寒露", 10, 8), ("立冬", 11, 7), ("大雪", 12, 7), ("小寒", 1, 6)]

/-- Downward scan of getMonthZhiIndex in ganzhi.ts: i + 1 is the number of
table entries still to try, scanning from index i downwards. -/
def monthZhiScan (month day : Nat) : Nat → Nat
  | 0 => 1
  | i + 1 =>
      let entry := JIE_QI_APPROX.getD i ("", 0, 0)
      if month > entry.2.1 ∨ (month = entry.2.1 ∧ day ≥ entry.2.2) then (i + 2) % 12
      else monthZhiScan month day i

/-- Function getMonthZhiIndex of ganzhi.ts. -/
def getMonthZhiIndex (month day : Nat) : Nat :=
  monthZhiScan month day 12

/-- Function getMonthGanZhi of ganzhi.ts (month pillar from the solar-term
boundary and the five-stems-start-the-first-month rule). -/
def getMonthGanZhi (date : DateRec) : GanZhiPair :=
  let monthZhiIndex := getMonthZhiIndex date.month date.day
  let yearGanZhi := getYearGanZhi date
  let yearGanIndex := getTianGanIndex yearGanZhi.gan
  let yearGanGroup := yearGanIndex % 5
  let firstMonthGanIndex := (yearGanGroup * 2 + 2) % 10
  let monthOffset := (monthZhiIndex - 2 + 12) % 12
  let monthGanIndex := (firstMonthGanIndex + monthOffset) % 10
  { gan := TIAN_GAN.getD monthGanIndex .Jia, zhi := DI_ZHI.getD monthZhiIndex .Zi }

/-- Function getHourGanZhi of ganzhi.ts: the 23:00 boundary belongs to the
next day for the day pillar (the +24h Date of the source advances the
epoch-day number by one). -/
def getHourGanZhi (date : DateRec) : GanZhiPair :=
  let hourZhiIndex := if date.hour ≥ 23 ∨ date.hour < 1 then 0 else (date.hour + 1) / 2
  let dayEp := if date.hour ≥ 23 then date.ep + 1 else date.ep
  let dayGanZhi := getDayGanZhi dayEp
  let dayGanIndex := getTianGanIndex dayGanZhi.gan
  let dayGanGroup := dayGanIndex % 5
  let ziHourGanIndex := (dayGanGroup * 2) % 10
  let hourGanIndex := (ziHourGanIndex + hourZhiIndex) % 10
  { gan := TIAN_GAN.getD hourGanIndex .Jia, zhi := DI_ZHI.getD hourZhiIndex .Zi }

/-- Function getVoidBranches of ganzhi.ts: the void pair of the day pillar
(cycle start at (branch index - stem index) normalised mod 12, voids at
cycle start + 10 and + 11). -/
def getVoidBranches (dayGan : TianGan) (dayZhi : DiZhi) : DiZhi × DiZhi :=
  let ganIndex : Int := getTianGanIndex dayGan
  let zhiIndex : Int := getDiZhiIndex dayZhi
  let xunStartZhiIndex := jsMod (jsMod (zhiIndex - ganIndex) 12 + 12) 12
  let void1Index := jsMod (xunStartZhiIndex + 10) 12
  let void2Index := jsMod (xunStartZhiIndex + 11) 12
  (DI_ZHI.getD void1Index.toNat .Zi, DI_ZHI.getD void2Index.toNat .Zi)

/-- Function getGanZhiTime of ganzhi.ts. -/
def getGanZhiTime (date : DateRec) : GanZhiTime :=
  let year := getYearGanZhi date
  let month := getMonthGanZhi date
  let day := getDayGanZhi date.ep
  let hour := getHourGanZhi date
  let voidBranches := getVoidBranches day.gan day.zhi
  { year := year, month := month, day := day, hour := hour,
    voidBranches := voidBranches,
    monthWuXing := DI_ZHI_WU_XING month.zhi,
    dayWuXing := DI_ZHI_WU_XING day.zhi }

/-- Function isVoid of ganzhi.ts. -/
def isVoidZhi (zhi : DiZhi) (voidBranches : DiZhi × DiZhi) : Bool :=
  zhi == voidBranches.1 ∨ zhi == voidBranches.2

/-- Function isDayBroken of ganzhi.ts (clash with the day branch). -/
def isDayBroken (zhi dayZhi : DiZhi) : Bool :=
  (getDiZhiIndex zhi + 6) % 12 == getDiZhiIndex dayZhi

/-- Function isMonthBroken of ganzhi.ts (clash with the month branch). -/
def isMonthBroken (zhi monthZhi : DiZhi) : Bool :=
  (getDiZhiIndex zhi + 6) % 12 == getDiZhiIndex monthZhi

/-- Mapping 数字转八卦 numToBaGua inside castByTime of hexagram.ts
(pre-heaven trigram numbers 1-8). -/
def numToBaGua : Nat → Option BaGua
  | 1 => some .Qian | 2 => some .Dui | 3 => some .Li | 4 => some .Zhen
  | 5 => some .Xun | 6 => some .Kan | 7 => some .Gen | 8 => some .Kun
  | _ => none

/-- Loop body of castByTime: line i of the full binary becomes a young or
old line depending on whether i + 1 is the active position. -/
def timeYaoState (movingPosition : Nat) (i : Nat) (isYang : Bool) : YaoState :=
  let isMoving := (i + 1) == movingPosition
  let type : YaoType :=
    if isYang ∧ isMoving then .oldYang
    else if isYang ∧ ¬isMoving then .youngYang
    else if ¬isYang ∧ isMoving then .oldYin
    else .youngYin
  { yinYang := if isYang then .yang else .yin, isMoving := isMoving, type := type }

/-- Index-threading map for the castByTime line loop. -/
def timeYaoStatesFrom (movingPosition i : Nat) : List Bool → List YaoState
  | [] => []
  | b :: rest => timeYaoState movingPosition i b :: timeYaoStatesFrom movingPosition (i + 1) rest

/-- Function castByTime of hexagram.ts: time-based casting.  The trigram
number lookups cannot miss (both numbers are in 1..8) but are Option in
this model, mirroring the untotal Record access. -/
def castByTime (date : DateRec) : Option (List YaoState) :=
  let ganZhi := getGanZhiTime date
  let yearNum := getDiZhiIndex ganZhi.year.zhi + 1
  let monthNum := getDiZhiIndex ganZhi.month.zhi + 1
  let dayNum := date.day
  let hourNum := getDiZhiIndex ganZhi.hour.zhi + 1
  let upperSum := yearNum + monthNum + dayNum
  let lowerSum := upperSum + hourNum
  let upperGuaNum := (upperSum - 1) % 8 + 1
  let lowerGuaNum := (lowerSum - 1) % 8 + 1
  let movingPosition := (lowerSum - 1) % 6 + 1
  match numToBaGua upperGuaNum, numToBaGua lowerGuaNum with
  | some upperGua, some lowerGua =>
      let fullBinary := (BA_GUA_DATA lowerGua).binary ++ (BA_GUA_DATA upperGua).binary
      some (timeYaoStatesFrom movingPosition 0 fullBinary)
  | _, _ => none

/-- Interface ChangedYaoInfo of types.ts: the transformation descriptor of
an active line. -/
structure ChangedYaoInfo where
  yinYang : YinYang
  diZhi : DiZhi
  wuXing : WuXing
  liuQin : LiuQin
  changeType : ChangeType
  deriving DecidableEq, Repr

/-- Interface YaoInfo of types.ts: a fully installed line. -/
structure YaoInfo extends YaoState where
  position : Nat
  diZhi : DiZhi
  tianGan : Option TianGan
  wuXing : WuXing
  liuQin : LiuQin
  liuShen : LiuShen
  isWorld : Bool
  isResponse : Bool
  changedYao : Option ChangedYaoInfo
  prosperity : Option ProsperityState := none
  isVoid : Bool
  isDayBroken : Bool
  isMonthBroken : Bool
  deriving DecidableEq, Repr

/-- Function getNaJiaDiZhi of najia.ts (branch of one line position 1-6). -/
def getNaJiaDiZhi (gua : BaGua) (position : Nat) : DiZhi :=
  (NA_JIA_DI_ZHI gua).getD (position - 1) .Zi

/-- Function getFullNaJiaDiZhi of najia.ts: positions 1-3 from the lower
trigram list, positions 4-6 from the upper trigram list. -/
def getFullNaJiaDiZhi (lowerGua upperGua : BaGua) : List DiZhi :=
  (NA_JIA_DI_ZHI lowerGua).take 3 ++ ((NA_JIA_DI_ZHI upperGua).drop 3).take 3

/-- Function getNaJiaTianGan of najia.ts. -/
def getNaJiaTianGan (gua : BaGua) (isUpper : Bool) : TianGan :=
  if gua = .Qian then (if isUpper then .Ren else .Jia)
  else if gua = .Kun then (if isUpper then .Gui else .Yi)
  else (BA_GUA_DATA gua).naJiaYang

/-- Function calculateLiuQin of najia.ts. -/
def calculateLiuQin (palaceWuXing yaoWuXing : WuXing) : LiuQin :=
  getLiuQin palaceWuXing yaoWuXing

/-- Function binaryToGua of najia.ts (3-bit pattern to trigram; any other
list is an out-of-table access in the source and none here). -/
def binaryToGua : List Bool → Option BaGua
  | [true, true, true] => some .Qian
  | [false, true, true] => some .Dui
  | [true, false, true] => some .Li
  | [false, false, true] => some .Zhen
  | [true, true, false] => some .Xun
  | [false, true, false] => some .Kan
  | [true, false, false] => some .Gen
  | [false, false, false] => some .Kun
  | _ => none

/-- Function determineChangeType of najia.ts: advancing, retreating,
return-birth, return-clash or normal. -/
def determineChangeType (originalDiZhi changedDiZhi : DiZhi) (_palaceWuXing : WuXing) : ChangeType :=
  let originalIdx := getDiZhiIndex originalDiZhi
  let changedIdx := getDiZhiIndex changedDiZhi
  if (changedIdx + 12 - originalIdx) % 12 = 1 then .advance
  else if (originalIdx + 12 - changedIdx) % 12 = 1 then .retreat
  else
    let originalWuXing := DI_ZHI_WU_XING originalDiZhi
    let changedWuXing := DI_ZHI_WU_XING changedDiZhi
    let originalLiuQin := getLiuQin originalWuXing changedWuXing
    if originalLiuQin = .FuMu then .returnBirth
    else if originalLiuQin = .GuanGui then .returnClash
    else .normal

/-- Flip of one character of the binary key inside calculateChangedYao of
najia.ts (index threading of the source map). -/
def flipAtFrom (target idx : Nat) : List Bool → List Bool
  | [] => []
  | b :: rest => (if idx = target then !b else b) :: flipAtFrom target (idx + 1) rest

/-- Function calculateChangedYao of najia.ts: the transformation descriptor
of the active line at the given position. -/
def calculateChangedYao (yaoState : YaoState) (position : Nat) (guaInfo : GuaInfo) :
    Option ChangedYaoInfo :=
  let changedYinYang : YinYang := if yaoState.yinYang = .yang then .yin else .yang
  let changedBinary := flipAtFrom (position - 1) 0 guaInfo.binary
  let changedLowerBinary := changedBinary.take 3
  let changedUpperBinary := (changedBinary.drop 3).take 3
  match binaryToGua changedLowerBinary, binaryToGua changedUpperBinary with
  | some changedLowerGua, some changedUpperGua =>
      let isUpper := position > 3
      let changedGua := if isUpper then changedUpperGua else changedLowerGua
      let changedDiZhi := getNaJiaDiZhi changedGua position
      let changedWuXing := DI_ZHI_WU_XING changedDiZhi
      let changedLiuQin := calculateLiuQin guaInfo.wuXing changedWuXing
      let originalDiZhi := (getFullNaJiaDiZhi guaInfo.lowerGua guaInfo.upperGua).getD (position - 1) .Zi
      let changeType := determineChangeType originalDiZhi changedDiZhi guaInfo.wuXing
      some { yinYang := changedYinYang, diZhi := changedDiZhi, wuXing := changedWuXing,
             liuQin := changedLiuQin, changeType := changeType }
  | _, _ => none

/-- Body of the installHexagram map of najia.ts for one line. -/
def installYao (guaInfo : GuaInfo) (index : Nat) (yaoState : YaoState) (diZhi : DiZhi) : YaoInfo :=
  let position := index + 1
  let yaoWuXing := DI_ZHI_WU_XING diZhi
  let liuQin := calculateLiuQin guaInfo.wuXing yaoWuXing
  let isWorld := position == guaInfo.worldPosition
  let isResponse := position == guaInfo.responsePosition
  let isUpper := position > 3
  let currentGua := if isUpper then guaInfo.upperGua else guaInfo.lowerGua
  let tianGan := getNaJiaTianGan currentGua isUpper
  let changedYao : Option ChangedYaoInfo :=
    if yaoState.isMoving then calculateChangedYao yaoState position guaInfo else none
  { toYaoState := yaoState, position := position, diZhi := diZhi, tianGan := some tianGan,
    wuXing := yaoWuXing, liuQin := liuQin, liuShen := .QingLong,
    isWorld := isWorld, isResponse := isResponse, changedYao := changedYao,
    prosperity := none, isVoid := false, isDayBroken := false, isMonthBroken := false }

/-- Index threading of the installHexagram map (lines with the branch list
zipped positionally, as the source indexes naJiaDiZhi by the map index). -/
def installFrom (guaInfo : GuaInfo) (index : Nat) :
    List YaoState → List DiZhi → List YaoInfo
  | [], _ => []
  | _, [] => []
  | y :: ys, d :: ds => installYao guaInfo index y d :: installFrom guaInfo (index + 1) ys ds

/-- Function installHexagram of najia.ts: the six lines with branch, six
kin, world/response flags and the transformation descriptor of each
active line (the guardian is the placeholder 青龙 until installLiuShen). -/
def installHexagram (yaoStates : List YaoState) (guaInfo : GuaInfo) : List YaoInfo :=
  installFrom guaInfo 0 yaoStates (getFullNaJiaDiZhi guaInfo.lowerGua guaInfo.upperGua)

/-- Body of the getChangedYaoInfos map of najia.ts for one line (the
changed list never carries a descriptor: changedYao is reset to none). -/
def changedYaoInfoAt (changedGuaInfo : GuaInfo) (index : Nat) (originalYao : YaoInfo)
    (diZhi : DiZhi) : YaoInfo :=
  let position := index + 1
  let yinYang : YinYang :=
    if originalYao.isMoving then (if originalYao.yinYang = .yang then .yin else .yang)
    else originalYao.yinYang
  let yaoWuXing := DI_ZHI_WU_XING diZhi
  let liuQin := calculateLiuQin changedGuaInfo.wuXing yaoWuXing
  let isUpper := position > 3
  let currentGua := if isUpper then changedGuaInfo.upperGua else changedGuaInfo.lowerGua
  let tianGan := getNaJiaTianGan currentGua isUpper
  { originalYao with
      yinYang := yinYang, position := position, diZhi := diZhi, tianGan := some tianGan,
      wuXing := yaoWuXing, liuQin := liuQin,
      isWorld := position == changedGuaInfo.worldPosition,
      isResponse := position == changedGuaInfo.responsePosition,
      changedYao := none }

/-- Index threading of the getChangedYaoInfos map. -/
def changedYaoInfosFrom (changedGuaInfo : GuaInfo) (index : Nat) :
    List YaoInfo → List DiZhi → List YaoInfo
  | [], _ => []
  | _, [] => []
  | y :: ys, d :: ds =>
      changedYaoInfoAt changedGuaInfo index y d :: changedYaoInfosFrom changedGuaInfo (index + 1) ys ds

/-- Function getChangedYaoInfos of najia.ts: the changed hexagram line list
derived from the primary lines. -/
def getChangedYaoInfos (originalYaoInfos : List YaoInfo) (changedGuaInfo : GuaInfo) : List YaoInfo :=
  changedYaoInfosFrom changedGuaInfo 0 originalYaoInfos
    (getFullNaJiaDiZhi changedGuaInfo.lowerGua changedGuaInfo.upperGua)

/-- Function findYaoByLiuQin of najia.ts. -/
def findYaoByLiuQin (yaoInfos : List YaoInfo) (liuQin : LiuQin) : List YaoInfo :=
  yaoInfos.filter (fun yao => yao.liuQin == liuQin)

/-- Function getWorldYao of najia.ts (throws in the source when absent). -/
def getWorldYao (yaoInfos : List YaoInfo) : Option YaoInfo :=
  yaoInfos.find? (fun yao => yao.isWorld)

/-- Function getResponseYao of najia.ts (throws in the source when absent). -/
def getResponseYao (yaoInfos : List YaoInfo) : Option YaoInfo :=
  yaoInfos.find? (fun yao => yao.isResponse)

/-- Function getStartLiuShen of liushen.ts. -/
def getStartLiuShen (dayGan : TianGan) : LiuShen :=
  LIU_SHEN_START dayGan

/-- Index of a guardian in LIU_SHEN_ORDER (indexOf of the source). -/
def liuShenOrderIndex : LiuShen → Nat
  | .QingLong => 0 | .ZhuQue => 1 | .GouChen => 2
  | .TengShe => 3 | .BaiHu => 4 | .XuanWu => 5

/-- Function getLiuShenArray of liushen.ts: the cyclic guardian sequence for
lines 1-6 starting at the day stem guardian. -/
def getLiuShenArray (dayGan : TianGan) : List LiuShen :=
  let startIndex := liuShenOrderIndex (getStartLiuShen dayGan)
  (List.range 6).map (fun i => LIU_SHEN_ORDER.getD ((startIndex + i) % 6) .QingLong)

/-- Function installLiuShen of liushen.ts (map with index, so positionally
zipped with the guardian array). -/
def installLiuShen (yaoInfos : List YaoInfo) (dayGan : TianGan) : List YaoInfo :=
  List.zipWith (fun yao shen => { yao with liuShen := shen }) yaoInfos (getLiuShenArray dayGan)

/-- Result record of analyzeProsperity (interface ProsperityAnalysis of
types.ts).  The source score mixes integers with one 0.5-weighted term,
so the model keeps score2 = 2 x score exactly; the reasons list is
presentation only and not modelled. -/
structure ProsperityAnalysis where
  monthProsperity : ProsperityState
  dayStatus : DayStatus
  monthStage : Option TwelveStage
  dayStage : Option TwelveStage
  score2 : Int
  deriving DecidableEq, Repr

/-- Helper getMonthProsperityScore of prosperity.ts, doubled. -/
def getMonthProsperityScore2 : ProsperityState → Int
  | .Wang => 10 | .Xiang => 6 | .Xiu => 0 | .Qiu => -4 | .Si => -8

/-- Helper getDayStatus of prosperity.ts. -/
def getDayStatus (yaoWuXing dayWuXing : WuXing) : DayStatus :=
  if WU_XING_SHENG dayWuXing = yaoWuXing ∨ dayWuXing = yaoWuXing then .support
  else if WU_XING_KE dayWuXing = yaoWuXing then .restrain
  else .neutral

/-- Helper getDayStatusScore of prosperity.ts, doubled. -/
def getDayStatusScore2 : DayStatus → Int
  | .support => 4 | .restrain => -4 | .neutral => 0

/-- Array TWELVE_STAGES of constants.ts. -/
def TWELVE_STAGES : List TwelveStage :=
  [.ChangSheng, .MuYu, .GuanDai, .LinGuan, .DiWang, .Shuai,
   .Bing, .SiStage, .Mu, .Jue, .Tai, .Yang]

/-- Table WU_XING_CHANG_SHENG_START of constants.ts (yang-stem start). -/
def WU_XING_CHANG_SHENG_START_YANG : WuXing → DiZhi
  | .Mu => .Hai | .Huo => .Yin | .Tu => .Yin | .Jin => .Si | .Shui => .Shen

/-- Helper getTwelveStage of prosperity.ts (the start table is total, so the
undefined guard of the source is unreachable). -/
def getTwelveStage (wuXing : WuXing) (diZhi : DiZhi) : Option TwelveStage :=
  let startZhi := WU_XING_CHANG_SHENG_START_YANG wuXing
  let startIdx := getDiZhiIndex startZhi
  let currentIdx := getDiZhiIndex diZhi
  let offset := (currentIdx + 12 - startIdx) % 12
  some (TWELVE_STAGES.getD offset .ChangSheng)

/-- Helper getTwelveStageScore of prosperity.ts (integer values; the source
halves them when adding, which the doubled score absorbs). -/
def getTwelveStageScore : TwelveStage → Int
  | .ChangSheng => 3 | .MuYu => 1 | .GuanDai => 2 | .LinGuan => 3 | .DiWang => 4
  | .Shuai => -1 | .Bing => -2 | .SiStage => -3 | .Mu => -2 | .Jue => -4
  | .Tai => 0 | .Yang => 1

/-- Function analyzeProsperity of prosperity.ts, with the score carried as
score2 = 2 x score (so the 0.5-weighted stage term adds getTwelveStageScore
once and every other term twice; the final clamp to [-10, 10] becomes a
clamp to [-20, 20]). -/
def analyzeProsperity (yaoInfo : YaoInfo) (ganZhiTime : GanZhiTime) : ProsperityAnalysis :=
  let yaoWuXing := yaoInfo.wuXing
  let monthWuXing := ganZhiTime.monthWuXing
  let dayWuXing := ganZhiTime.dayWuXing
  let monthZhi := ganZhiTime.month.zhi
  let dayZhi := ganZhiTime.day.zhi
  let monthProsperity := getProsperityByMonth yaoWuXing monthWuXing
  let score2a := getMonthProsperityScore2 monthProsperity
  let dayStatus := getDayStatus yaoWuXing dayWuXing
  let score2b := score2a + getDayStatusScore2 dayStatus
  let score2c := if isVoidZhi yaoInfo.diZhi ganZhiTime.voidBranches then score2b - 6 else score2b
  let score2d := if isDayBroken yaoInfo.diZhi dayZhi then score2c - 8 else score2c
  let score2e := if isMonthBroken yaoInfo.diZhi monthZhi then score2d - 10 else score2d
  let monthStage := getTwelveStage yaoWuXing monthZhi
  let dayStage := getTwelveStage yaoWuXing dayZhi
  let score2f :=
    match monthStage with
    | some stage => if getTwelveStageScore stage ≠ 0 then score2e + getTwelveStageScore stage else score2e
    | none => score2e
  let score2 := max (-20) (min 20 score2f)
  { monthProsperity := monthProsperity, dayStatus := dayStatus,
    monthStage := monthStage, dayStage := dayStage, score2 := score2 }

/-- Function analyzeAllProsperity of prosperity.ts: write the month tier and
the void / day-clash / month-clash flags onto every line. -/
def analyzeAllProsperity (yaoInfos : List YaoInfo) (ganZhiTime : GanZhiTime) : List YaoInfo :=
  yaoInfos.map (fun yao =>
    let prosperity := analyzeProsperity yao ganZhiTime
    { yao with
        prosperity := some prosperity.monthProsperity,
        isVoid := isVoidZhi yao.diZhi ganZhiTime.voidBranches,
        isDayBroken := isDayBroken yao.diZhi ganZhiTime.day.zhi,
        isMonthBroken := isMonthBroken yao.diZhi ganZhiTime.month.zhi })

/-- Interface RelationAnalysis of types.ts; the parties and description
strings are presentation only and not modelled. -/
structure RelationAnalysis where
  type : DiZhiRelation
  impact : Impact
  deriving DecidableEq, Repr

/-- Function checkSixClash of relations.ts. -/
def checkSixClash (zhi1 zhi2 : DiZhi) : Bool :=
  DI_ZHI_CHONG zhi1 == zhi2

/-- Function checkSixHarmony of relations.ts. -/
def checkSixHarmony (zhi1 zhi2 : DiZhi) : Bool :=
  DI_ZHI_HE zhi1 == zhi2

/-- Function checkSixHarm of relations.ts. -/
def checkSixHarm (zhi1 zhi2 : DiZhi) : Bool :=
  DI_ZHI_HAI zhi1 == zhi2

/-- Function checkThreePenalty of relations.ts. -/
def checkThreePenalty (zhi1 zhi2 : DiZhi) : Bool :=
  (DI_ZHI_XING zhi1).contains zhi2

/-- Result of checkThreeHarmony of relations.ts. -/
structure ThreeHarmonyResult where
  isComplete : Bool
  wuXing : Option WuXing
  deriving DecidableEq, Repr

/-- Scan of the triad-union sets inside checkThreeHarmony of relations.ts,
in table order with early return.  A complete match additionally requires
the input list to have length exactly 3 (the zhis.length === 3 guard of
the source); the half-union test counts matching input entries with
multiplicity (matchCount >= 2). -/
def threeHarmonyScan (zhis : List DiZhi) : List (List DiZhi × WuXing) → ThreeHarmonyResult
  | [] => { isComplete := false, wuXing := none }
  | (sanHeSet, wuXing) :: rest =>
      if zhis.length = 3 ∧ zhis.all (fun z => sanHeSet.contains z) ∧
          sanHeSet.dedup.length = zhis.dedup.length then
        { isComplete := true, wuXing := some wuXing }
      else if 2 ≤ (zhis.filter (fun z => sanHeSet.contains z)).length then
        { isComplete := false, wuXing := some wuXing }
      else threeHarmonyScan zhis rest

/-- Function checkThreeHarmony of relations.ts. -/
def checkThreeHarmony (zhis : List DiZhi) : ThreeHarmonyResult :=
  threeHarmonyScan zhis DI_ZHI_SAN_HE

/-- Findings pushed for one unordered line pair by analyzeRelations of
relations.ts (clash, union, harm, penalty, tested in that order and all
matches pushed). -/
def pairFindings (yao1 yao2 : YaoInfo) : List RelationAnalysis :=
  (if checkSixClash yao1.diZhi yao2.diZhi then
    [{ type := .sixClash, impact := .negative }] else []) ++
  (if checkSixHarmony yao1.diZhi yao2.diZhi then
    [{ type := .sixHarmony, impact := .positive }] else []) ++
  (if checkSixHarm yao1.diZhi yao2.diZhi then
    [{ type := .sixHarm, impact := .negative }] else []) ++
  (if checkThreePenalty yao1.diZhi yao2.diZhi then
    [{ type := .threePenalty, impact := .negative }] else [])

/-- The i < j double loop of analyzeRelations over line pairs. -/
def allPairFindings : List YaoInfo → List RelationAnalysis
  | [] => []
  | yao :: rest => rest.flatMap (pairFindings yao) ++ allPairFindings rest

/-- Findings of one line against the day branch (analyzeRelations step 2):
a day clash is only recorded as a neutral stirring when the line is at
peak or supported tier and not itself active; a day union is favorable. -/
def dayFindings (dayZhi : DiZhi) (yao : YaoInfo) : List RelationAnalysis :=
  (if checkSixClash yao.diZhi dayZhi then
    (if (yao.prosperity == some .Wang ∨ yao.prosperity == some .Xiang) ∧ ¬yao.isMoving then
      [{ type := .sixClash, impact := .neutral }] else [])
  else []) ++
  (if checkSixHarmony yao.diZhi dayZhi then
    [{ type := .sixHarmony, impact := .positive }] else [])

/-- Findings of one line against the month branch (analyzeRelations step 3). -/
def monthFindings (monthZhi : DiZhi) (yao : YaoInfo) : List RelationAnalysis :=
  (if checkSixClash yao.diZhi monthZhi then
    [{ type := .sixClash, impact := .negative }] else []) ++
  (if checkSixHarmony yao.diZhi monthZhi then
    [{ type := .sixHarmony, impact := .positive }] else [])

/-- Findings of one active line against its transformation descriptor
(analyzeRelations step 4). -/
def changedFindings (yao : YaoInfo) : List RelationAnalysis :=
  if yao.isMoving then
    match yao.changedYao with
    | some changed =>
        (if checkSixClash yao.diZhi changed.diZhi then
          [{ type := .sixClash, impact := .negative }] else []) ++
        (if checkSixHarmony yao.diZhi changed.diZhi then
          [{ type := .sixHarmony, impact := .neutral }] else [])
    | none => []
  else []

/-- Function analyzeRelations of relations.ts: pairwise findings, then
day-pillar, month-pillar and transformation findings, then the triad-union
check over all six line branches. -/
def analyzeRelations (yaoInfos : List YaoInfo) (ganZhiTime : GanZhiTime) : List RelationAnalysis :=
  let monthZhi := ganZhiTime.month.zhi
  let dayZhi := ganZhiTime.day.zhi
  let pairRels := allPairFindings yaoInfos
  let dayRels := yaoInfos.flatMap (dayFindings dayZhi)
  let monthRels := yaoInfos.flatMap (monthFindings monthZhi)
  let changedRels := yaoInfos.flatMap changedFindings
  let allZhis := yaoInfos.map (fun y => y.diZhi)
  let threeHarmonyResult := checkThreeHarmony allZhis
  let sanHeRels :=
    if threeHarmonyResult.isComplete ∧ threeHarmonyResult.wuXing.isSome then
      [{ type := .threeHarmony, impact := .positive : RelationAnalysis }]
    else []
  pairRels ++ dayRels ++ monthRels ++ changedRels ++ sanHeRels

/-- Interface YongShenInfo of types.ts. -/
structure YongShenInfo where
  liuQin : LiuQin
  positions : List Nat
  reason : String
  isAutoSelected : Bool
  alternatives : Option (List (LiuQin × String)) := none
  deriving DecidableEq, Repr

/-- One entry of YONG_SHEN_RULES of constants.ts. -/
structure YongShenRule where
  primary : YongShenTarget
  secondary : Option YongShenTarget := none
  description : String
  deriving DecidableEq, Repr

/-- Table 用神取法表 YONG_SHEN_RULES of constants.ts, keyed by the question
subtype string. -/
def YONG_SHEN_RULES : String → Option YongShenRule
  | "career_job" => some { primary := .kin .GuanGui, description := "求官、求职以官鬼为用神" }
  | "career_business" => some { primary := .kin .QiCai, description := "经商求财以妻财为用神" }
  | "career_promotion" => some { primary := .kin .GuanGui, description := "升迁以官鬼为用神" }
  | "career_interview" => some { primary := .kin .GuanGui, description := "面试以官鬼为用神" }
  | "love_male" => some { primary := .kin .QiCai, description := "男问婚姻以妻财为用神" }
  | "love_female" => some { primary := .kin .GuanGui, description := "女问婚姻以官鬼为用神" }
  | "love_relationship" =>
      some { primary := .YingYao, secondary := some .ShiYao, description := "问感情发展以应爻为对方" }
  | "wealth_general" => some { primary := .kin .QiCai, description := "求财以妻财为用神" }
  | "wealth_investment" => some { primary := .kin .QiCai, description := "投资以妻财为用神" }
  | "wealth_business" => some { primary := .kin .QiCai, description := "生意以妻财为用神" }
  | "health_self" =>
      some { primary := .ShiYao, secondary := some (.kin .GuanGui), description := "自己问病以世爻为主，官鬼为病" }
  | "health_other" =>
      some { primary := .YongShenLiteral, secondary := some (.kin .GuanGui), description := "代问病以六亲用神为主，官鬼为病" }
  | "study_exam" =>
      some { primary := .kin .FuMu, secondary := some (.kin .GuanGui), description := "考试以父母为用神（文书），官鬼次之" }
  | "study_learning" => some { primary := .kin .FuMu, description := "学习以父母为用神" }
  | "lawsuit_plaintiff" =>
      some { primary := .ShiYao, secondary := some (.kin .GuanGui), description := "原告以世爻为自己，官鬼为官司" }
  | "lawsuit_defendant" =>
      some { primary := .ShiYao, secondary := some (.kin .ZiSun), description := "被告以世爻为自己，子孙制官为吉" }
  | "travel_self" => some { primary := .ShiYao, description := "自己出行以世爻为用神" }
  | "travel_safety" =>
      some { primary := .ShiYao, secondary := some (.kin .GuanGui), description := "问出行安全以世爻为主，官鬼为险" }
  | "lost_item" => some { primary := .kin .QiCai, description := "寻物以妻财为用神" }
  | "lost_person" => some { primary := .YongShenLiteral, description := "寻人以六亲用神（如子孙、父母等）" }
  | "other_general" => some { primary := .ShiYao, description := "杂占以世爻为主" }
  | _ => none

/-- Table QUESTION_SUBTYPES of yongshen.ts (only the subtype strings matter
for the engine default; the descriptions are presentation only). -/
def QUESTION_SUBTYPES : QuestionCategory → List String
  | .career => ["career_job", "career_business", "career_promotion", "career_interview"]
  | .love => ["love_male", "love_female", "love_samesex", "love_relationship"]
  | .wealth => ["wealth_general", "wealth_investment", "wealth_business"]
  | .health => ["health_self", "health_other"]
  | .study => ["study_exam", "study_learning"]
  | .lawsuit => ["lawsuit_plaintiff", "lawsuit_defendant"]
  | .travel => ["travel_self", "travel_safety"]
  | .lost => ["lost_item", "lost_person"]
  | .other => ["other_general"]

/-- Helper createWorldYongShen of yongshen.ts (none when the world line is
missing, which throws in the source). -/
def createWorldYongShen (yaoInfos : List YaoInfo) : Option YongShenInfo :=
  (getWorldYao yaoInfos).map (fun worldYao =>
    { liuQin := worldYao.liuQin, positions := [worldYao.position],
      reason := "以世爻为用神，代表自己或事情的主体", isAutoSelected := true })

/-- Function selectYongShen of yongshen.ts: focus-element selection by the
subtype rule table, with the self-line fallback and the hidden-role case
(empty position list plus the secondary role as alternative). -/
def selectYongShen (yaoInfos : List YaoInfo) (questionSubType : String) : Option YongShenInfo :=
  match YONG_SHEN_RULES questionSubType with
  | none => createWorldYongShen yaoInfos
  | some rule =>
    match rule.primary with
    | .ShiYao => createWorldYongShen yaoInfos
    | .YingYao =>
        match getResponseYao yaoInfos with
        | some responseYao =>
            some { liuQin := responseYao.liuQin, positions := [responseYao.position],
                   reason := rule.description, isAutoSelected := true }
        | none => createWorldYongShen yaoInfos
    | .YongShenLiteral => createWorldYongShen yaoInfos
    | .kin primaryLiuQin =>
        let secondaryLiuQin : Option LiuQin :=
          match rule.secondary with
          | some (.kin q) => some q
          | _ => none
        let yongShenYaos := findYaoByLiuQin yaoInfos primaryLiuQin
        let alternatives : Option (List (LiuQin × String)) :=
          match secondaryLiuQin with
          | some q => some [(q, "备选用神")]
          | none => none
        if yongShenYaos.length = 0 then
          some { liuQin := primaryLiuQin, positions := [],
                 reason := rule.description ++ "，但用神不在卦中显现，需查伏神",
                 isAutoSelected := true, alternatives := alternatives }
        else
          some { liuQin := primaryLiuQin,
                 positions := yongShenYaos.map (fun y => y.position),
                 reason := rule.description, isAutoSelected := true,
                 alternatives := alternatives }

/-- Function getQuestionSubType of engine.ts: category plus user subtype and
gender resolved to a rule-table key. -/
def getQuestionSubType (category : QuestionCategory) (userSubType : Option String)
    (gender : Option GenderOption) : String :=
  match category with
  | .love =>
      if userSubType == some "same_sex" ∨ gender == some .sameSex then "love_samesex"
      else if userSubType == some "female" ∨ gender == some .female then "love_female"
      else if userSubType == some "male" ∨ gender == some .male then "love_male"
      else "love_male"
  | .career => if userSubType == some "business" then "career_business" else "career_job"
  | .health => if userSubType == some "other" then "health_other" else "health_self"
  | .lost => if userSubType == some "person" then "lost_person" else "lost_item"
  | _ =>
      match QUESTION_SUBTYPES category with
      | subtype :: _ => subtype
      | [] => "other_general"

/-- Interpretation item (interface InterpretationItem of types.ts); only the
kind tag and the related line positions are modelled, the two text
registers and the reasoning chain being presentation only. -/
structure InterpItem where
  type : ItemType
  relatedYao : Option (List Nat) := none
  deriving DecidableEq, Repr

/-- The three uncertainty-note push sites of generateInterpretation in the
interpretation module (the records themselves hold only prose). -/
inductive UncertaintyKind where
  | yongShenHidden | yongShenVoid | tooManyMovingYao
  deriving DecidableEq, Repr

/-- Result of one optional-uncertainty sub-analysis. -/
structure SubAnalysis where
  item : InterpItem
  uncertainty : Option UncertaintyKind
  deriving DecidableEq, Repr

/-- Interpretation result (interface InterpretationResult of types.ts);
summaries, timing predictions and the causal chain are presentation only
and not modelled - none of them feeds the trend. -/
structure InterpResult where
  trend : TrendJudgment
  items : List InterpItem
  uncertainties : List UncertaintyKind
  deriving DecidableEq, Repr

/-- Function analyzeYongShenStatus of the interpretation module: hidden
focus element yields an obstacle item plus an uncertainty; otherwise the
focus line is classified by month tier, void and clash state (void adds
an uncertainty).  The non-null assertion of the source on the focus line
is none here when no line matches. -/
def analyzeYongShenStatus (yaoInfos : List YaoInfo) (yongShen : YongShenInfo)
    (ganZhiTime : GanZhiTime) : Option SubAnalysis :=
  if yongShen.positions.length = 0 then
    some { item := { type := .obstacle, relatedYao := some [] },
           uncertainty := some .yongShenHidden }
  else
    match yaoInfos.find? (fun y => yongShen.positions.contains y.position) with
    | none => none
    | some yongShenYao =>
        let prosperity := analyzeProsperity yongShenYao ganZhiTime
        let isStrong := prosperity.monthProsperity = .Wang ∨ prosperity.monthProsperity = .Xiang
        let isVoid := yongShenYao.isVoid
        let isBroken := yongShenYao.isDayBroken ∨ yongShenYao.isMonthBroken
        some { item := { type := if isStrong ∧ ¬isVoid ∧ ¬isBroken then .support else .obstacle,
                         relatedYao := some [yongShenYao.position] },
               uncertainty := if isVoid then some .yongShenVoid else none }

/-- Function analyzeWorldResponse of the interpretation module: the item is
supportive exactly when the world line prosperity score is positive. -/
def analyzeWorldResponse (yaoInfos : List YaoInfo) (ganZhiTime : GanZhiTime) :
    Option InterpItem :=
  match getWorldYao yaoInfos, getResponseYao yaoInfos with
  | some worldYao, some responseYao =>
      let worldProsperity := analyzeProsperity worldYao ganZhiTime
      let worldStrong := worldProsperity.score2 > 0
      some { type := if worldStrong then .support else .obstacle,
             relatedYao := some [worldYao.position, responseYao.position] }
  | _, _ => none

/-- Function analyzeMovingYao of the interpretation module: none without
active lines; four or more active lines yield the single risk item with
an uncertainty; otherwise one trend item summarising the per-line
transformation narratives. -/
def analyzeMovingYao (yaoInfos : List YaoInfo) : Option SubAnalysis :=
  let movingYaos := yaoInfos.filter (fun y => y.isMoving)
  if movingYaos.length = 0 then none
  else if movingYaos.length ≥ 4 then
    some { item := { type := .risk, relatedYao := some (movingYaos.map (fun y => y.position)) },
           uncertainty := some .tooManyMovingYao }
  else
    some { item := { type := .trend, relatedYao := some (movingYaos.map (fun y => y.position)) },
           uncertainty := none }

/-- Function analyzeRelationsImpact of the interpretation module: keep only
clash / union / penalty / harm findings, at most the first three, each
mapped to an item by its impact tag. -/
def analyzeRelationsImpact (relations : List RelationAnalysis) : List InterpItem :=
  let importantRelations := relations.filter (fun r =>
    r.type == .sixClash ∨ r.type == .sixHarmony ∨ r.type == .threePenalty ∨ r.type == .sixHarm)
  (importantRelations.take 3).map (fun relation =>
    { type :=
        if relation.impact == .positive then .support
        else if relation.impact == .negative then .obstacle
        else .trend })

/-- Function analyzeVoidAndBroken of the interpretation module: an obstacle
item when the focus line is void, else when it is day- or month-clashed,
else nothing. -/
def analyzeVoidAndBroken (yaoInfos : List YaoInfo) (yongShen : YongShenInfo) :
    Option InterpItem :=
  match yaoInfos.find? (fun y => yongShen.positions.contains y.position) with
  | none => none
  | some yongShenYao =>
      if yongShenYao.isVoid then
        some { type := .obstacle, relatedYao := some [yongShenYao.position] }
      else if yongShenYao.isDayBroken ∨ yongShenYao.isMonthBroken then
        some { type := .obstacle, relatedYao := some [yongShenYao.position] }
      else none

/-- Function judgeTrend of the interpretation module: two or more logged
uncertainties force the uncertain trend; otherwise a weighted tally of
supportive and obstructive items (risk items weigh two obstacles, the
focus-element item weighs two extra either way) is cut at -4, -2, 2, 4. -/
def judgeTrend (items : List InterpItem) (yongShenItem : InterpItem)
    (uncertaintyCount : Nat) : TrendJudgment :=
  if uncertaintyCount ≥ 2 then .uncertain
  else
    let supportCount : Int := (items.filter (fun i => i.type == .support)).length
    let obstacleCount : Int := ((items.filter (fun i => i.type == .obstacle)).length : Int) +
      2 * ((items.filter (fun i => i.type == .risk)).length : Int)
    let supportCount := if yongShenItem.type == .support then supportCount + 2 else supportCount
    let obstacleCount := if yongShenItem.type == .obstacle then obstacleCount + 2 else obstacleCount
    let diff := supportCount - obstacleCount
    if diff ≥ 4 then .veryFavorable
    else if diff ≥ 2 then .favorable
    else if diff ≤ -4 then .veryUnfavorable
    else if diff ≤ -2 then .unfavorable
    else .neutral

/-- Function generateInterpretation of the interpretation module, reduced to
the fields that feed the trend: sub-analyses in source order (focus
element, world/response, active lines, up to three relations, void or
clash state of the focus line), the uncertainty notes of the first and
third, and the trend judgment.  Timing predictions, summaries and the
causal chain are presentation only (the timing search additionally reads
the wall clock, not the casting input). -/
def generateInterpretation (primaryYaoInfos : List YaoInfo) (ganZhiTime : GanZhiTime)
    (yongShen : YongShenInfo) (relations : List RelationAnalysis) : Option InterpResult :=
  match analyzeYongShenStatus primaryYaoInfos yongShen ganZhiTime with
  | none => none
  | some yongShenAnalysis =>
    match analyzeWorldResponse primaryYaoInfos ganZhiTime with
    | none => none
    | some worldResponseItem =>
        let movingYaoAnalysis := analyzeMovingYao primaryYaoInfos
        let relationItems := analyzeRelationsImpact relations
        let voidItem := analyzeVoidAndBroken primaryYaoInfos yongShen
        let items := [yongShenAnalysis.item, worldResponseItem] ++
          (movingYaoAnalysis.map (fun a => a.item)).toList ++ relationItems ++ voidItem.toList
        let uncertainties := yongShenAnalysis.uncertainty.toList ++
          (movingYaoAnalysis.bind (fun a => a.uncertainty)).toList
        let trend := judgeTrend items yongShenAnalysis.item uncertainties.length
        some { trend := trend, items := items, uncertainties := uncertainties }

/-- Interface CastingTime of types.ts; the timezone string is an
environment default and presentation only. -/
structure CastingTime where
  gregorian : DateRec
  ganZhi : GanZhiTime
  deriving DecidableEq, Repr

/-- Function createCastingTime of engine.ts. -/
def createCastingTime (date : DateRec) : CastingTime :=
  { gregorian := date, ganZhi := getGanZhiTime date }

/-- Interface CastingInput of types.ts.  The line list is the 6-tuple of
the source; subType is the loosely-typed extra field the UI attaches and
engine.ts reads. -/
structure CastingInput where
  method : CastingMethod
  yaoStates : List YaoState
  time : CastingTime
  questionCategory : QuestionCategory
  subType : Option String := none
  gender : Option GenderOption := none
  deriving DecidableEq, Repr

/-- The fields of DivinationResult computed purely from the casting input
by castHexagram of engine.ts (the nuclear, opposite and reversed hexagrams
and the reasoning chain are not modelled; no claim reads them). -/
structure DivinationCore where
  input : CastingInput
  primaryGua : GuaInfo
  primaryYao : List YaoInfo
  changedGua : Option GuaInfo
  changedYao : Option (List YaoInfo)
  movingYaoPositions : List Nat
  ganZhiTime : GanZhiTime
  yongShen : YongShenInfo
  relations : List RelationAnalysis
  interpretation : InterpResult
  deriving DecidableEq, Repr

/-- The ambient state castHexagram draws on besides its input: the nanoid
random id and the wall clock (new Date() for createdAt; the timing
predictions also read it). -/
structure CastEnv where
  seed : Nat
  now : Int
  deriving DecidableEq, Repr

/-- Interface DivinationResult of types.ts: the pure core plus the
environment-dependent id and creation time. -/
structure DivinationResult extends DivinationCore where
  id : Nat
  createdAt : Int
  deriving DecidableEq, Repr

/-- The input-determined part of castHexagram of engine.ts, stages in
source order: calendar, primary hexagram, najia install, guardians,
prosperity, changed hexagram, relations, focus element, interpretation. -/
def castHexagramCore (input : CastingInput) : Option DivinationCore :=
  let ganZhiTime := getGanZhiTime input.time.gregorian
  match getGuaFromYaoStates input.yaoStates with
  | none => none
  | some primaryGua =>
    let yaoInfos1 := installHexagram input.yaoStates primaryGua
    let yaoInfos2 := installLiuShen yaoInfos1 ganZhiTime.day.gan
    let primaryYaoInfos := analyzeAllProsperity yaoInfos2 ganZhiTime
    let movingPositions := getMovingPositions input.yaoStates
    let changedGua := if movingPositions.length > 0 then getChangedGua input.yaoStates else none
    let changedYaoInfos := changedGua.map (fun g =>
      analyzeAllProsperity (getChangedYaoInfos primaryYaoInfos g) ganZhiTime)
    let relations := analyzeRelations primaryYaoInfos ganZhiTime
    let questionSubType := getQuestionSubType input.questionCategory input.subType input.gender
    match selectYongShen primaryYaoInfos questionSubType with
    | none => none
    | some yongShen =>
      match generateInterpretation primaryYaoInfos ganZhiTime yongShen relations with
      | none => none
      | some interpretation =>
          some { input := input, primaryGua := primaryGua, primaryYao := primaryYaoInfos,
                 changedGua := changedGua, changedYao := changedYaoInfos,
                 movingYaoPositions := movingPositions, ganZhiTime := ganZhiTime,
                 yongShen := yongShen, relations := relations,
                 interpretation := interpretation }

/-- Function castHexagram of engine.ts: the pure core stamped with the
environment-drawn id and creation time. -/
def castHexagram (env : CastEnv) (input : CastingInput) : Option DivinationResult :=
  (castHexagramCore input).map (fun core =>
    { toDivinationCore := core, id := env.seed, createdAt := env.now })

/-- The logical content of the share code of engine.ts: the four-field
record serialized by serializeResult before the btoa/JSON transport (the
transport format itself is the out-of-scope encoding choice). -/
structure ShareData where
  y : String
  t : Int
  q : QuestionCategory
  m : CastingMethod
  deriving DecidableEq, Repr

/-- Draw-value character of one line in serializeResult of engine.ts. -/
def drawChar : YaoType → Char
  | .oldYang => '9'
  | .youngYang => '7'
  | .youngYin => '8'
  | .oldYin => '6'

/-- Function serializeResult of engine.ts, up to the injective btoa/JSON
transport: draw-value string, epoch milliseconds, category and method of
the original input. -/
def serializeResult (result : DivinationResult) : ShareData :=
  { y := String.mk (result.input.yaoStates.map (fun ys => drawChar ys.type)),
    t := result.input.time.gregorian.ms,
    q := result.input.questionCategory,
    m := result.input.method }

/-- Per-character line reconstruction of deserializeResult of engine.ts.
A non-digit character gives NaN in the source, which fails every numeric
comparison and stores NaN as the coin result: here the parse is none and
every comparison with it is false. -/
def charToYaoState (c : Char) : YaoState :=
  let num : Option Nat := if c.isDigit then some (c.toNat - '0'.toNat) else none
  { yinYang := if num == some 7 ∨ num == some 9 then .yang else .yin,
    isMoving := num == some 6 ∨ num == some 9,
    type := if num == some 9 then .oldYang
            else if num == some 7 then .youngYang
            else if num == some 8 then .youngYin
            else .oldYin,
    coinResult := num }

/-- The construction half of deserializeResult of engine.ts on an already
parsed share record; the Date constructor is passed in as mk (JavaScript
guarantees (new Date(t)).getTime() = t, stated as a hypothesis where
needed).  The falsy fallbacks on data.m and data.q of the source never fire on
the enum-typed fields. -/
def deserializeData (mk : Int → DateRec) (data : ShareData) : CastingInput :=
  { method := data.m,
    yaoStates := data.y.toList.map charToYaoState,
    time := createCastingTime (mk data.t),
    questionCategory := data.q }

/-- Function deserializeResult of engine.ts: the whole body runs inside a
try/catch returning null on any failure, so with the fallible
atob/JSON.parse transport abstracted as parse, a malformed code is none
and a well-formed one decodes through deserializeData. -/
def deserializeResult (parse : String → Option ShareData) (mk : Int → DateRec)
    (encoded : String) : Option CastingInput :=
  (parse encoded).map (deserializeData mk)

/-- Function validateCastingInput of engine.ts, reduced to its line-count
check (the time and category fields are non-optional in this model, so
the two null checks of the source cannot fire). -/
def validateCastingInputOk (input : CastingInput) : Bool :=
  input.yaoStates.length == 6

/-- A young yin line (coin draw 8). -/
def youngYinLine : YaoState :=
  { yinYang := .yin, isMoving := false, type := .youngYin, coinResult := some 8 }

/-- A young yang line (coin draw 7). -/
def youngYangLine : YaoState :=
  { yinYang := .yang, isMoving := false, type := .youngYang, coinResult := some 7 }

/-- An old (active) yin line (coin draw 6). -/
def oldYinLine : YaoState :=
  { yinYang := .yin, isMoving := true, type := .oldYin, coinResult := some 6 }

/-- An old (active) yang line (coin draw 9). -/
def oldYangLine : YaoState :=
  { yinYang := .yang, isMoving := true, type := .oldYang, coinResult := some 9 }

/-- The six-line input of spec scenario 3 and repo test case 3, bottom to
top: active yin, yin, yin, yang, yang, yang (coin draws 6 8 8 7 7 7). -/
def scenario3States : List YaoState :=
  [oldYinLine, youngYinLine, youngYinLine, youngYangLine, youngYangLine, youngYangLine]

/-- Scenario 3 with only position 1 flipped to yang (the re-resolution input
of the claim; only the polarity matters to the resolver). -/
def scenario3Flipped : List YaoState :=
  [youngYangLine, youngYinLine, youngYinLine, youngYangLine, youngYangLine, youngYangLine]

/-- C1: the six-line input [active-yin, yin, yin, yang, yang, yang]
(bottom to top) has exactly one active line at position 1 and its changed
hexagram is exactly the flip-position-1-and-re-resolve hexagram, but the
primary resolution is the table entry named 地天泰, not 天地否 as the claim,
the spec and the repo snapshot test expect: getGuaFromYaoStates builds its
lookup key bottom-to-top while the GUA_64_DATA keys are written
top-to-bottom (entry 111000 named 天地否 lists 乾 as its upper trigram,
which is the first three characters), so asymmetric hexagrams resolve to
their mirror image. -/
theorem c1_resolver_mirrors_table :
    getMovingPositions scenario3States = [1] ∧
    (getGuaFromYaoStates scenario3States).map (fun g => g.name) = some "地天泰" ∧
    ((getGuaFromYaoStates scenario3States).map (fun g => g.name) == some "天地否") = false ∧
    getChangedGua scenario3States = getGuaFromYaoStates scenario3Flipped ∧
    (getChangedGua scenario3States).map (fun g => g.name) = some "山天大畜" := by
  refine ⟨rfl, rfl, by decide, rfl, rfl⟩

/-- All 64 six-bit binary keys (bit i of n is line i + 1, bottom to top). -/
def allBinaryKeys6 : List (List Bool) :=
  (List.range 64).map (fun n => (List.range 6).map (fun i => n / 2 ^ i % 2 = 1))

/-- A quiet line of the given polarity, used to re-resolve a binary key
through getGuaFromYaoStates (the claim's round-trip construction). -/
def lineOfBit (b : Bool) : YaoState :=
  { yinYang := if b then .yang else .yin, isMoving := false,
    type := if b then .youngYang else .youngYin }

/-- Line states whose resolver key is exactly the given binary key. -/
def statesOfKey (k : List Bool) : List YaoState :=
  k.map lineOfBit

/-- C2: the 64-entry table GUA_64_DATA has an entry for every one of the 64
distinct 6-bit binary keys, no two entries share a key, and resolving any
entry's own key through getGuaFromYaoStates returns exactly that hexagram
with that key. -/
theorem c2_table_bijection_roundtrip :
    GUA_64_DATA.length = 64 ∧
    (GUA_64_DATA.map Prod.fst).Nodup ∧
    (allBinaryKeys6.all (fun k => (GUA_64_DATA.lookup k).isSome)) = true ∧
    (GUA_64_DATA.all (fun p =>
      getGuaFromYaoStates (statesOfKey p.1) ==
        some { toGuaData := p.2, binary := p.1 })) = true := by
  refine ⟨rfl, by decide, by decide, by decide⟩

/-- The six installed line branches of the pure 乾 hexagram (table entry
111111): they contain the complete water triad 申子辰. -/
def qianSixBranches : List DiZhi := [.Zi, .Yin, .Chen, .Wu, .Shen, .Xu]

/-- All-yang quiet input resolving to the pure 乾 hexagram. -/
def qianStates : List YaoState :=
  [youngYangLine, youngYangLine, youngYangLine, youngYangLine, youngYangLine, youngYangLine]

/-- A casting input on the pure 乾 hexagram, dated 2024-03-15 10:30 local
(epoch day 19797). -/
def qianInput : CastingInput :=
  { method := .manual, yaoStates := qianStates,
    time := createCastingTime { year := 2024, month := 3, day := 15, hour := 10,
                                ep := 19797, ms := 1710469800000 },
    questionCategory := .career }

/-- C3: all three members of the first triad-union set 申子辰 are present
among the six line branches of the pure 乾 hexagram, yet checkThreeHarmony
reports only a half-union (isComplete = false) because its complete-match
branch additionally requires the input list to have length exactly 3 - as
the same three branches alone show - and consequently analyzeRelations,
which always passes all six branches, never emits a triad-union finding,
as the full pipeline run on that hexagram shows. -/
theorem c3_complete_triad_never_reported_on_six_branches :
    (DI_ZHI_SAN_HE.map Prod.fst).head? = some [.Shen, .Zi, .Chen] ∧
    ([DiZhi.Shen, DiZhi.Zi, DiZhi.Chen].all (fun z => qianSixBranches.dedup.contains z)) = true ∧
    checkThreeHarmony qianSixBranches = { isComplete := false, wuXing := some .Shui } ∧
    checkThreeHarmony [.Shen, .Zi, .Chen] = { isComplete := true, wuXing := some .Shui } ∧
    (castHexagramCore qianInput).map
      (fun r => (r.primaryYao.map (fun y => y.diZhi),
                 r.relations.any (fun rel => rel.type == .threeHarmony))) =
      some (qianSixBranches, false) := by
  refine ⟨rfl, by decide, by decide, by decide, by decide⟩

/-- C6: for every day stem and day branch, getVoidBranches returns exactly
the branches at indices ((branch - stem) mod 12) + 10 and + 11 (mod 12),
the two void branches are cyclically adjacent, and the 甲子 day pillar
yields the pair 戌亥. -/
theorem c6_void_branches_formula_adjacent :
    (∀ (g : TianGan) (z : DiZhi),
      getVoidBranches g z =
        (DI_ZHI.getD (((getDiZhiIndex z + 12 - getTianGanIndex g) % 12 + 10) % 12) .Zi,
         DI_ZHI.getD (((getDiZhiIndex z + 12 - getTianGanIndex g) % 12 + 11) % 12) .Zi) ∧
      getDiZhiIndex (getVoidBranches g z).2 =
        (getDiZhiIndex (getVoidBranches g z).1 + 1) % 12) ∧
    getVoidBranches .Jia .Zi = (.Xu, .Hai) := by
  refine ⟨by decide, by decide⟩

/-- A successful association-list lookup means the queried key is one of
the stored keys. -/
theorem lookup_isSome_mem_keys {α β : Type} [BEq α] [LawfulBEq α]
    (l : List (α × β)) (k : α) (h : (l.lookup k).isSome) : k ∈ l.map Prod.fst := by
  induction l with
  | nil => simp at h
  | cons p rest ih =>
      cases hbe : k == p.1 with
      | true =>
          have hpk : k = p.1 := eq_of_beq hbe
          rw [List.map_cons, ← hpk]
          exact List.mem_cons_self _ _
      | false =>
          rw [List.lookup, hbe] at h
          exact List.mem_cons_of_mem _ (ih h)

/-- Every key of the 64-entry table has length 6. -/
theorem gua64_keys_length6 : ∀ k ∈ GUA_64_DATA.map Prod.fst, k.length = 6 := by decide

/-- A hexagram produced by the resolver carries a 6-bit binary key. -/
theorem resolver_binary_length6 {states : List YaoState} {gua : GuaInfo}
    (h : getGuaFromYaoStates states = some gua) : gua.binary.length = 6 := by
  simp only [getGuaFromYaoStates] at h
  cases hl : GUA_64_DATA.lookup (states.map yaoBit) with
  | none => rw [hl] at h; simp at h
  | some d =>
      rw [hl] at h
      have h2 : ({ toGuaData := d, binary := List.map yaoBit states } : GuaInfo) = gua :=
        Option.some.inj h
      have hmem := lookup_isSome_mem_keys GUA_64_DATA (states.map yaoBit) (by rw [hl]; rfl)
      have hlen := gua64_keys_length6 _ hmem
      rw [← h2]
      exact hlen

/-- Flipping one position preserves the key length. -/
theorem flipAtFrom_length (t : Nat) : ∀ (i : Nat) (l : List Bool),
    (flipAtFrom t i l).length = l.length := by
  intro i l
  induction l generalizing i with
  | nil => rfl
  | cons b rest ih => simp [flipAtFrom, ih]

/-- Every 3-bit pattern is some trigram. -/
theorem binaryToGua_isSome3 : ∀ a b c : Bool, (binaryToGua [a, b, c]).isSome := by decide

/-- A list of length six is a literal six-element list. -/
theorem list_length_six {α : Type} {l : List α} (h : l.length = 6) :
    ∃ a b c d e f, l = [a, b, c, d, e, f] := by
  match l, h with
  | [a, b, c, d, e, f], _ => exact ⟨a, b, c, d, e, f, rfl⟩

/-- On a 6-bit key the transformation descriptor always computes (both
changed half-trigram lookups succeed). -/
theorem calculateChangedYao_isSome (ys : YaoState) (pos : Nat) (gua : GuaInfo)
    (h : gua.binary.length = 6) : (calculateChangedYao ys pos gua).isSome := by
  have hlen : (flipAtFrom (pos - 1) 0 gua.binary).length = 6 := by
    rw [flipAtFrom_length]; exact h
  obtain ⟨a, b, c, d, e, f, hcb⟩ := list_length_six hlen
  simp only [calculateChangedYao, hcb]
  obtain ⟨g1, hg1⟩ := Option.isSome_iff_exists.mp (binaryToGua_isSome3 a b c)
  obtain ⟨g2, hg2⟩ := Option.isSome_iff_exists.mp (binaryToGua_isSome3 d e f)
  simp only [List.take, List.drop] at hg1 hg2 ⊢
  rw [hg1, hg2]
  rfl

/-- Every line produced by the install loop has a descriptor exactly when
it is active, provided the hexagram key has 6 bits. -/
theorem installFrom_changed_iff_moving (gua : GuaInfo) (h6 : gua.binary.length = 6) :
    ∀ (ss : List YaoState) (ds : List DiZhi) (idx : Nat) (y : YaoInfo),
      y ∈ installFrom gua idx ss ds → y.changedYao.isSome = y.isMoving := by
  intro ss
  induction ss with
  | nil => intro ds idx y hy; cases ds <;> simp [installFrom] at hy
  | cons s rest ih =>
      intro ds idx y hy
      cases ds with
      | nil => simp [installFrom] at hy
      | cons dz ds =>
          simp only [installFrom, List.mem_cons] at hy
          rcases hy with rfl | hy
          · cases hm : s.isMoving with
            | false => simp [installYao, hm]
            | true => simp [installYao, hm, calculateChangedYao_isSome _ _ _ h6]
          · exact ih ds (idx + 1) y hy

/-- Every line of the changed-hexagram loop carries no descriptor. -/
theorem changedYaoInfosFrom_none (g : GuaInfo) :
    ∀ (infos : List YaoInfo) (ds : List DiZhi) (idx : Nat) (y : YaoInfo),
      y ∈ changedYaoInfosFrom g idx infos ds → y.changedYao = none := by
  intro infos
  induction infos with
  | nil => intro ds idx y hy; cases ds <;> simp [changedYaoInfosFrom] at hy
  | cons info rest ih =>
      intro ds idx y hy
      cases ds with
      | nil => simp [changedYaoInfosFrom] at hy
      | cons dz ds =>
          simp only [changedYaoInfosFrom, List.mem_cons] at hy
          rcases hy with rfl | hy
          · simp [changedYaoInfoAt]
          · exact ih ds (idx + 1) y hy

/-- C4 (amended): among the primary hexagram's installed lines every active
line carries a transformation descriptor and every inactive line carries
none; the changed hexagram's line list, however, never carries a
descriptor on any line (its lines keep the active flags inherited from
the primary lines). -/
theorem c4_amended_active_descriptor :
    (∀ (states : List YaoState) (gua : GuaInfo), getGuaFromYaoStates states = some gua →
      ∀ y ∈ installHexagram states gua, y.changedYao.isSome = y.isMoving) ∧
    (∀ (infos : List YaoInfo) (g : GuaInfo),
      ∀ y ∈ getChangedYaoInfos infos g, y.changedYao = none) := by
  constructor
  · intro states gua hgua y hy
    exact installFrom_changed_iff_moving gua (resolver_binary_length6 hgua) _ _ _ y hy
  · intro infos g y hy
    exact changedYaoInfosFrom_none g _ _ _ y hy

/-- A casting input on scenario 3 (one active line), dated 2024-03-15 10:30
local (epoch day 19797). -/
def scenario3Input : CastingInput :=
  { method := .coin, yaoStates := scenario3States,
    time := createCastingTime { year := 2024, month := 3, day := 15, hour := 10,
                                ep := 19797, ms := 1710469800000 },
    questionCategory := .love }

/-- C4 (counterexample): on a full pipeline run with one active line, the
changed hexagram's line list keeps the active flag of line 1 but its
transformation descriptor is none, so the claimed invariant fails on the
changed hexagram's lines. -/
theorem c4_counterexample_changed_line_active_without_descriptor :
    ((castHexagramCore scenario3Input).bind (fun r => r.changedYao)).map
        (fun l => l.map (fun y => (y.isMoving, y.changedYao.isSome))) =
      some [(true, false), (false, false), (false, false),
            (false, false), (false, false), (false, false)] := by
  rfl

/-- The table entry the resolver returns for scenario 3. -/
def scenario3Gua : GuaInfo :=
  { name := "地天泰", sequence := 60, upperGua := .Kun, lowerGua := .Qian, palace := .Kun,
    worldPosition := 3, responsePosition := 6, wuXing := .Tu, binary := keyOf "000111" }

/-- Witness for the amended C4 theorem at the concrete scenario 3 input. -/
theorem c4_amended_witness :
    getGuaFromYaoStates scenario3States = some scenario3Gua ∧
    (∀ y ∈ installHexagram scenario3States scenario3Gua, y.changedYao.isSome = y.isMoving) ∧
    (∀ y ∈ getChangedYaoInfos (installHexagram scenario3States scenario3Gua) scenario3Gua,
      y.changedYao = none) :=
  ⟨by decide,
   c4_amended_active_descriptor.1 scenario3States scenario3Gua (by decide),
   c4_amended_active_descriptor.2 (installHexagram scenario3States scenario3Gua) scenario3Gua⟩

/-- A casting input with all six lines active (six old-yang draws), dated
2024-03-15 10:30 local, career question. -/
def sixMovingInput : CastingInput :=
  { method := .coin,
    yaoStates := [oldYangLine, oldYangLine, oldYangLine, oldYangLine, oldYangLine, oldYangLine],
    time := createCastingTime { year := 2024, month := 3, day := 15, hour := 10,
                                ep := 19797, ms := 1710469800000 },
    questionCategory := .career }

/-- C5 (counterexample): a casting with six simultaneously active lines
yields exactly one risk item but only one uncertainty note (the focus
element 官鬼 is manifest and not void), so the trend is judged by the
tally - neutral here - and not forced to uncertain. -/
theorem c5_counterexample_six_moving_trend_not_uncertain :
    (castHexagramCore sixMovingInput).map (fun r =>
      ((r.primaryYao.filter (fun y => y.isMoving)).length,
       (r.interpretation.items.filter (fun i => i.type == .risk)).length,
       r.interpretation.uncertainties.length,
       r.interpretation.trend)) = some (6, 1, 1, .neutral) := by
  rfl

/-- The focus-element status item is never a risk item. -/
theorem analyzeYongShenStatus_not_risk {yaoInfos : List YaoInfo} {yongShen : YongShenInfo}
    {gzt : GanZhiTime} {sa : SubAnalysis}
    (h : analyzeYongShenStatus yaoInfos yongShen gzt = some sa) :
    sa.item.type = .support ∨ sa.item.type = .obstacle := by
  unfold analyzeYongShenStatus at h
  split at h
  · right; cases h; rfl
  · split at h
    · exact absurd h (by simp)
    · cases h
      dsimp only
      split
      · left; rfl
      · right; rfl

/-- The world/response comparison item is never a risk item. -/
theorem analyzeWorldResponse_not_risk {yaoInfos : List YaoInfo} {gzt : GanZhiTime}
    {it : InterpItem} (h : analyzeWorldResponse yaoInfos gzt = some it) :
    it.type = .support ∨ it.type = .obstacle := by
  unfold analyzeWorldResponse at h
  split at h
  · cases h
    dsimp only
    split
    · left; rfl
    · right; rfl
  · exact absurd h (by simp)

/-- Relation-impact items are never risk items. -/
theorem analyzeRelationsImpact_not_risk (relations : List RelationAnalysis) :
    ∀ it ∈ analyzeRelationsImpact relations, (it.type == ItemType.risk) = false := by
  intro it hit
  unfold analyzeRelationsImpact at hit
  rw [List.mem_map] at hit
  obtain ⟨rel, _, rfl⟩ := hit
  dsimp only
  split
  · rfl
  · split <;> rfl

/-- The void/clash item of the focus line is never a risk item. -/
theorem analyzeVoidAndBroken_not_risk {yaoInfos : List YaoInfo} {yongShen : YongShenInfo}
    {it : InterpItem} (h : analyzeVoidAndBroken yaoInfos yongShen = some it) :
    it.type = .obstacle := by
  unfold analyzeVoidAndBroken at h
  split at h
  · exact absurd h (by simp)
  · split at h
    · cases h; rfl
    · split at h
      · cases h; rfl
      · exact absurd h (by simp)

/-- With four or more active lines analyzeMovingYao returns the single risk
item together with its uncertainty note. -/
theorem analyzeMovingYao_ge4 {yaoInfos : List YaoInfo}
    (h4 : 4 ≤ (yaoInfos.filter (fun y => y.isMoving)).length) :
    analyzeMovingYao yaoInfos =
      some { item := { type := .risk,
                       relatedYao := some ((yaoInfos.filter (fun y => y.isMoving)).map
                         (fun y => y.position)) },
             uncertainty := some .tooManyMovingYao } := by
  unfold analyzeMovingYao
  rw [if_neg (by omega), if_pos (by omega)]

/-- Below two uncertainty notes judgeTrend never returns uncertain. -/
theorem judgeTrend_lt2_ne_uncertain (items : List InterpItem) (it : InterpItem)
    (n : Nat) (h : n < 2) : judgeTrend items it n ≠ .uncertain := by
  unfold judgeTrend
  rw [if_neg (by omega)]
  dsimp only
  split_ifs <;> simp

/-- C5 (amended): for every interpretation computed from four or more
simultaneously active lines, the item list contains exactly one risk item
(instead of per-line narratives), the active-line analysis logs one
uncertainty note (for a total of one or two, the second coming only from
a hidden or void focus element), and the trend is forced to uncertain
exactly when that total reaches two - otherwise it follows the weighted
tally in which the risk item counts as two obstacles. -/
theorem c5_amended_four_moving_risk_and_trend :
    ∀ (yaoInfos : List YaoInfo) (gzt : GanZhiTime) (yongShen : YongShenInfo)
      (relations : List RelationAnalysis) (res : InterpResult),
      4 ≤ (yaoInfos.filter (fun y => y.isMoving)).length →
      generateInterpretation yaoInfos gzt yongShen relations = some res →
      ((res.items.filter (fun i => i.type == ItemType.risk)).length = 1 ∧
       1 ≤ res.uncertainties.length ∧ res.uncertainties.length ≤ 2 ∧
       (res.trend = .uncertain ↔ res.uncertainties.length = 2)) := by
  intro yaoInfos gzt yongShen relations res h4 hgen
  unfold generateInterpretation at hgen
  cases hys : analyzeYongShenStatus yaoInfos yongShen gzt with
  | none => rw [hys] at hgen; exact absurd hgen (by simp)
  | some ysa =>
  rw [hys] at hgen
  cases hwr : analyzeWorldResponse yaoInfos gzt with
  | none => rw [hwr] at hgen; exact absurd hgen (by simp)
  | some wr =>
  rw [hwr] at hgen
  rw [analyzeMovingYao_ge4 h4] at hgen
  simp only [Option.map_some', Option.some_bind, Option.toList_some] at hgen
  have hres := (Option.some.inj hgen).symm
  subst hres
  have hysT : (ysa.item.type == ItemType.risk) = false := by
    rcases analyzeYongShenStatus_not_risk hys with h | h <;> rw [h] <;> rfl
  have hwrT : (wr.type == ItemType.risk) = false := by
    rcases analyzeWorldResponse_not_risk hwr with h | h <;> rw [h] <;> rfl
  have hrel : (analyzeRelationsImpact relations).filter
      (fun i => i.type == ItemType.risk) = [] := by
    rw [List.filter_eq_nil_iff]
    intro a ha
    rw [analyzeRelationsImpact_not_risk relations a ha]
    simp
  have hvoid : (analyzeVoidAndBroken yaoInfos yongShen).toList.filter
      (fun i => i.type == ItemType.risk) = [] := by
    cases hv : analyzeVoidAndBroken yaoInfos yongShen with
    | none => rfl
    | some vi =>
        have hvt := analyzeVoidAndBroken_not_risk hv
        simp only [Option.toList, List.filter, hvt]
        rfl
  refine ⟨?_, ?_, ?_, ?_⟩
  · simp only [List.cons_append, List.nil_append, List.filter_cons, hysT, hwrT,
      List.filter_append, hrel, hvoid]
    simp
  · cases ysa.uncertainty <;> simp
  · cases ysa.uncertainty <;> simp
  · cases hu : ysa.uncertainty with
    | none =>
        simp only [hu, Option.toList_none, List.nil_append, List.length_cons,
          List.length_nil]
        constructor
        · intro hc
          exact absurd hc (judgeTrend_lt2_ne_uncertain _ _ 1 (by omega))
        · intro hc; omega
    | some u =>
        simp only [hu, Option.toList_some, List.cons_append, List.nil_append,
          List.length_cons, List.length_nil]
        constructor
        · intro _; trivial
        · intro _
          unfold judgeTrend
          rw [if_pos (by omega)]

/-- The installed primary lines of the six-active-lines run. -/
def sixMovingYao : List YaoInfo :=
  ((castHexagramCore sixMovingInput).map (fun r => r.primaryYao)).getD []

/-- The calendar of the six-active-lines run. -/
def sixMovingGzt : GanZhiTime := getGanZhiTime sixMovingInput.time.gregorian

/-- The focus element of the six-active-lines run. -/
def sixMovingYongShen : YongShenInfo :=
  ((castHexagramCore sixMovingInput).map (fun r => r.yongShen)).getD
    { liuQin := .FuMu, positions := [], reason := "", isAutoSelected := true }

/-- The relation findings of the six-active-lines run. -/
def sixMovingRelations : List RelationAnalysis :=
  ((castHexagramCore sixMovingInput).map (fun r => r.relations)).getD []

/-- The interpretation of the six-active-lines run. -/
def sixMovingRes : InterpResult :=
  ((castHexagramCore sixMovingInput).map (fun r => r.interpretation)).getD
    { trend := .neutral, items := [], uncertainties := [] }

/-- Witness for the amended C5 theorem at the six-active-lines run. -/
theorem c5_amended_witness :
    4 ≤ (sixMovingYao.filter (fun y => y.isMoving)).length ∧
    ((sixMovingRes.items.filter (fun i => i.type == ItemType.risk)).length = 1 ∧
     1 ≤ sixMovingRes.uncertainties.length ∧ sixMovingRes.uncertainties.length ≤ 2 ∧
     (sixMovingRes.trend = .uncertain ↔ sixMovingRes.uncertainties.length = 2)) :=
  ⟨by decide,
   c5_amended_four_moving_risk_and_trend sixMovingYao sixMovingGzt sixMovingYongShen
     sixMovingRelations sixMovingRes (by decide) (by decide)⟩

/-- The projections the determinism property cites: primary hexagram name,
per-line branches, per-line familial roles, focus-element role, trend. -/
def citedOf (r : DivinationResult) :
    String × List DiZhi × List LiuQin × LiuQin × TrendJudgment :=
  (r.primaryGua.name, r.primaryYao.map (fun y => y.diZhi),
   r.primaryYao.map (fun y => y.liuQin), r.yongShen.liuQin, r.interpretation.trend)

/-- C9: two castHexagram runs on byte-identical input agree on the primary
hexagram name, the line branches, the familial roles, the focus-element
role and the trend, whatever the ambient id seed and wall clock of each
run (the only environment the pipeline draws on). -/
theorem c9_determinism_cited_fields :
    ∀ (env1 env2 : CastEnv) (input : CastingInput),
      (castHexagram env1 input).map citedOf = (castHexagram env2 input).map citedOf := by
  intro env1 env2 input
  unfold castHexagram
  cases castHexagramCore input <;> rfl

/-- Draw value of a line as serializeResult of engine.ts writes it (9/7/8/6
by draw kind). -/
def drawValue : YaoType → Nat
  | .oldYang => 9 | .youngYang => 7 | .youngYin => 8 | .oldYin => 6

/-- Decoding the serialized draw character restores the draw kind, the coin
value, the polarity and the active flag. -/
theorem charToYaoState_drawChar : ∀ ty : YaoType,
    (charToYaoState (drawChar ty)).type = ty ∧
    (charToYaoState (drawChar ty)).coinResult = some (drawValue ty) := by decide

/-- The decoded line list is the image of the original under the
serialize/deserialize character pair. -/
theorem deserializeData_yaoStates (mk : Int → DateRec) (result : DivinationResult) :
    (deserializeData mk (serializeResult result)).yaoStates =
      result.input.yaoStates.map (fun y => charToYaoState (drawChar y.type)) := by
  simp [deserializeData, serializeResult, String.toList]

/-- Mapping the draw kind over the decoded lines restores the original draw
kinds. -/
theorem decoded_types_eq (l : List YaoState) :
    (l.map (fun y => charToYaoState (drawChar y.type))).map (fun y => y.type) =
      l.map (fun y => y.type) := by
  induction l with
  | nil => rfl
  | cons a t ih => simp [ih, (charToYaoState_drawChar a.type).1]

/-- The decoded coin values are the draw values of the original lines. -/
theorem decoded_coins_eq (l : List YaoState) :
    (l.map (fun y => charToYaoState (drawChar y.type))).map (fun y => y.coinResult) =
      l.map (fun y => some (drawValue y.type)) := by
  induction l with
  | nil => rfl
  | cons a t ih => simp [ih, (charToYaoState_drawChar a.type).2]

/-- C7: decoding the share code produced by serializeResult reproduces a
casting input with the same per-line draw kinds and draw values, the same
question category, the same method, and a timestamp equal in epoch
milliseconds to the original - given the transport (parse of the btoa/JSON
string) restores the serialized record and the JavaScript Date
constructor (mk) restores its millisecond argument. -/
theorem c7_share_code_roundtrip :
    ∀ (parse : String → Option ShareData) (mk : Int → DateRec)
      (result : DivinationResult) (encoded : String),
      parse encoded = some (serializeResult result) →
      (mk result.input.time.gregorian.ms).ms = result.input.time.gregorian.ms →
      ∃ input, deserializeResult parse mk encoded = some input ∧
        input.yaoStates.map (fun y => y.type) =
          result.input.yaoStates.map (fun y => y.type) ∧
        input.yaoStates.map (fun y => y.coinResult) =
          result.input.yaoStates.map (fun y => some (drawValue y.type)) ∧
        input.questionCategory = result.input.questionCategory ∧
        input.method = result.input.method ∧
        input.time.gregorian.ms = result.input.time.gregorian.ms := by
  intro parse mk result encoded hparse hmk
  refine ⟨deserializeData mk (serializeResult result), ?_, ?_, ?_, rfl, rfl, hmk⟩
  · unfold deserializeResult
    rw [hparse]
    rfl
  · rw [deserializeData_yaoStates]
    exact decoded_types_eq _
  · rw [deserializeData_yaoStates]
    exact decoded_coins_eq _

/-- A trivial Date constructor that stores its millisecond argument (the
JavaScript guarantee the round trip relies on). -/
def msOnlyDate (t : Int) : DateRec :=
  { year := 0, month := 0, day := 0, hour := 0, ep := 0, ms := t }

/-- A placeholder result used only as the getD fallback below. -/
def fallbackResult : DivinationResult :=
  { input := { method := .manual, yaoStates := [],
               time := createCastingTime (msOnlyDate 0), questionCategory := .other },
    primaryGua := scenario3Gua, primaryYao := [], changedGua := none, changedYao := none,
    movingYaoPositions := [], ganZhiTime := getGanZhiTime (msOnlyDate 0),
    yongShen := { liuQin := .FuMu, positions := [], reason := "", isAutoSelected := true },
    relations := [], interpretation := { trend := .neutral, items := [], uncertainties := [] },
    id := 0, createdAt := 0 }

/-- A concrete full casting result (the pure 乾 run). -/
def qianResult : DivinationResult :=
  (castHexagram { seed := 7, now := 1710469800000 } qianInput).getD fallbackResult

/-- A transport that decodes every string to the 乾 run's share record. -/
def qianParse : String → Option ShareData :=
  fun _ => some (serializeResult qianResult)

/-- Witness for the share-code round trip at the concrete 乾 run. -/
theorem c7_share_code_roundtrip_witness :
    (qianParse "code" = some (serializeResult qianResult) ∧
     (msOnlyDate qianResult.input.time.gregorian.ms).ms = qianResult.input.time.gregorian.ms) ∧
    (∃ input, deserializeResult qianParse msOnlyDate "code" = some input ∧
      input.yaoStates.map (fun y => y.type) =
        qianResult.input.yaoStates.map (fun y => y.type) ∧
      input.yaoStates.map (fun y => y.coinResult) =
        qianResult.input.yaoStates.map (fun y => some (drawValue y.type)) ∧
      input.questionCategory = qianResult.input.questionCategory ∧
      input.method = qianResult.input.method ∧
      input.time.gregorian.ms = qianResult.input.time.gregorian.ms) :=
  ⟨⟨rfl, rfl⟩, c7_share_code_roundtrip qianParse msOnlyDate qianResult "code" rfl rfl⟩

/-- C8: deserializeResult runs its whole body inside a try/catch, so with
the fallible transport abstracted as parse it never raises: a malformed
code (parse failure) decodes to none and a well-formed one decodes to the
reconstructed casting input. -/
theorem c8_deserialize_total :
    ∀ (parse : String → Option ShareData) (mk : Int → DateRec) (s : String),
      (parse s = none → deserializeResult parse mk s = none) ∧
      (∀ d, parse s = some d →
        deserializeResult parse mk s = some (deserializeData mk d)) := by
  intro parse mk s
  constructor
  · intro h
    unfold deserializeResult
    rw [h]
    rfl
  · intro d h
    unfold deserializeResult
    rw [h]
    rfl

/-- A transport on which every string is malformed. -/
def rejectAllParse : String → Option ShareData := fun _ => none

/-- Witness for C8 at a concrete malformed code. -/
theorem c8_deserialize_total_witness :
    rejectAllParse "not-a-share-code" = none ∧
    deserializeResult rejectAllParse msOnlyDate "not-a-share-code" = none :=
  ⟨rfl, (c8_deserialize_total rejectAllParse msOnlyDate "not-a-share-code").1 rfl⟩

/-- The time-casting line loop preserves length. -/
theorem timeYaoStatesFrom_length (p : Nat) : ∀ (i : Nat) (l : List Bool),
    (timeYaoStatesFrom p i l).length = l.length := by
  intro i l
  induction l generalizing i with
  | nil => rfl
  | cons b rest ih => simp [timeYaoStatesFrom, ih]

/-- Every trigram pattern is a literal 3-bit list. -/
theorem bagua_binary_three (g : BaGua) : ∃ x y z, (BA_GUA_DATA g).binary = [x, y, z] := by
  cases g <;> exact ⟨_, _, _, rfl⟩

/-- Every pre-heaven trigram number 1..8 resolves to a trigram. -/
theorem numToBaGua_mod8 (n : Nat) : ∃ g, numToBaGua (n % 8 + 1) = some g := by
  have h : n % 8 < 8 := Nat.mod_lt _ (by norm_num)
  set r := n % 8 with hr
  interval_cases r <;> exact ⟨_, rfl⟩

/-- On six lines the time-casting loop marks exactly the line at the active
position 1..6 and no other. -/
theorem timeYao_six_one_moving (p : Nat) (h1 : 1 ≤ p) (h6 : p ≤ 6)
    (b1 b2 b3 b4 b5 b6 : Bool) :
    ((timeYaoStatesFrom p 0 [b1, b2, b3, b4, b5, b6]).filter
      (fun y => y.isMoving)).length = 1 ∧
    getMovingPositions (timeYaoStatesFrom p 0 [b1, b2, b3, b4, b5, b6]) = [p] := by
  interval_cases p <;>
    simp [timeYaoStatesFrom, timeYaoState, getMovingPositions, movingPositionsFrom,
      List.filter]

/-- C10: for every timestamp the time-based casting returns exactly six
line states, exactly one of which is active, the active position being
((yearBranchNumber + monthBranchNumber + dayOfMonth + hourBranchNumber)
- 1) mod 6 + 1 with the branch numbers counted from 1. -/
theorem c10_castByTime_single_moving_line :
    ∀ (date : DateRec), ∃ states, castByTime date = some states ∧
      states.length = 6 ∧
      (states.filter (fun y => y.isMoving)).length = 1 ∧
      getMovingPositions states =
        [((getDiZhiIndex (getYearGanZhi date).zhi + 1) +
          (getDiZhiIndex (getMonthGanZhi date).zhi + 1) + date.day +
          (getDiZhiIndex (getHourGanZhi date).zhi + 1) - 1) % 6 + 1] := by
  intro date
  obtain ⟨ug, hug⟩ := numToBaGua_mod8
    ((getDiZhiIndex (getYearGanZhi date).zhi + 1 +
      (getDiZhiIndex (getMonthGanZhi date).zhi + 1) + date.day) - 1)
  obtain ⟨lg, hlg⟩ := numToBaGua_mod8
    ((getDiZhiIndex (getYearGanZhi date).zhi + 1 +
      (getDiZhiIndex (getMonthGanZhi date).zhi + 1) + date.day +
      (getDiZhiIndex (getHourGanZhi date).zhi + 1)) - 1)
  unfold castByTime
  rw [getGanZhiTime]
  dsimp only
  rw [hug, hlg]
  dsimp only
  obtain ⟨x1, y1, z1, hlow⟩ := bagua_binary_three lg
  obtain ⟨x2, y2, z2, hupp⟩ := bagua_binary_three ug
  rw [hlow, hupp]
  set p := ((getDiZhiIndex (getYearGanZhi date).zhi + 1) +
    (getDiZhiIndex (getMonthGanZhi date).zhi + 1) + date.day +
    (getDiZhiIndex (getHourGanZhi date).zhi + 1) - 1) % 6 + 1 with hp
  have hple : p ≤ 6 := by
    have := Nat.mod_lt ((getDiZhiIndex (getYearGanZhi date).zhi + 1) +
      (getDiZhiIndex (getMonthGanZhi date).zhi + 1) + date.day +
      (getDiZhiIndex (getHourGanZhi date).zhi + 1) - 1) (show 0 < 6 by norm_num)
    omega
  have hpge : 1 ≤ p := by omega
  obtain ⟨hcount, hpos⟩ := timeYao_six_one_moving p hpge hple x1 y1 z1 x2 y2 z2
  exact ⟨_, rfl, by rw [timeYaoStatesFrom_length]; rfl, hcount, hpos⟩
